import Mathlib

/-!
Verification of the JaySON schema toolkit (validator, template generator,
type/class code generator) against its specification.

The development is a shallow embedding of the TypeScript sources:

  * src/util/json-validator.ts    — getValueType, validateValue, validate
  * src/util/template-generator.ts — generateFromSchema
  * src/util/type-generator.ts    — schemaTypeToTs, toPascalCase, toCamelCase,
                                     generateTypeScript, generateInterface,
                                     getDefaultValue, generateClass

JavaScript data values are modelled by the inductive type `Json`; JavaScript
numbers are modelled as rationals (every IEEE-754 double is a rational, and
`Number.isInteger` corresponds to having denominator 1).  Schema nodes
(`JsonSchemaProperty` / `JsonSchema` in json-types.ts) are modelled by the
single-constructor inductive `SchemaNode` whose fields mirror the optional
fields of the TypeScript interfaces.  JavaScript truthiness tests that the
source performs on those fields are modelled explicitly (`strTruthy`,
`typeTruthy`, nonempty-string tests for `pattern`).

Regular-expression matching (`new RegExp(p).test(s)`, from the JavaScript
runtime, not part of this repository) is abstracted as a total boolean
parameter `rt : String → String → Bool`; totality of `rt` corresponds to the
schema's `pattern` fields being valid regular expressions, in which case
`new RegExp` does not throw and `test` is a total function.
-/

/-- Model of a JavaScript/JSON runtime value.  Numbers are rationals; an
integral number (denominator 1) corresponds to `Number.isInteger` being true. -/
inductive Json where
  | null : Json
  | bool (b : Bool) : Json
  | num (q : Rat) : Json
  | str (s : String) : Json
  | arr (elems : List Json) : Json
  | obj (fields : List (String × Json)) : Json

/-- Model of the `(string | number | boolean)` union used for `enum` entries
in json-types.ts. -/
inductive Prim where
  | s (v : String) : Prim
  | n (v : Rat) : Prim
  | b (v : Bool) : Prim
deriving DecidableEq

/-- Model of the `string | string[]` form of the `type` field of a schema
node (`JsonSchemaProperty.type` in json-types.ts). -/
inductive TypeField where
  | single (t : String) : TypeField
  | many (ts : List String) : TypeField
deriving DecidableEq

/-- Model of a schema node: the optional fields of `JsonSchemaProperty` /
`JsonSchema` from json-types.ts that the validator and the generators read.
`none` models an absent (undefined) field. -/
inductive SchemaNode where
  | mk
    (typeField : Option TypeField)
    (descr : Option String)
    (properties : Option (List (String × SchemaNode)))
    (items : Option SchemaNode)
    (required : Option (List String))
    (enum : Option (List Prim))
    (pattern : Option String)
    (minimum : Option Rat)
    (maximum : Option Rat)
    (minLength : Option Nat)
    (maxLength : Option Nat)
    (default : Option Json)
    (oneOf : Option (List SchemaNode))
    (anyOf : Option (List SchemaNode))
    (allOf : Option (List SchemaNode))
    (ref : Option String)
    (title : Option String)
    (definitions : Option (List (String × SchemaNode)))
    : SchemaNode

/-- Projection for the `type` field (named `typeField` because `type` is a
reserved word in Lean). -/
def SchemaNode.typeField : SchemaNode → Option TypeField
  | .mk t _ _ _ _ _ _ _ _ _ _ _ _ _ _ _ _ _ => t

/-- Projection for the `description` field. -/
def SchemaNode.descr : SchemaNode → Option String
  | .mk _ d _ _ _ _ _ _ _ _ _ _ _ _ _ _ _ _ => d

/-- Projection for the `properties` field; the association list preserves the
declaration order of `Object.entries`. -/
def SchemaNode.properties : SchemaNode → Option (List (String × SchemaNode))
  | .mk _ _ p _ _ _ _ _ _ _ _ _ _ _ _ _ _ _ => p

/-- Projection for the `items` field. -/
def SchemaNode.items : SchemaNode → Option SchemaNode
  | .mk _ _ _ i _ _ _ _ _ _ _ _ _ _ _ _ _ _ => i

/-- Projection for the `required` field. -/
def SchemaNode.required : SchemaNode → Option (List String)
  | .mk _ _ _ _ r _ _ _ _ _ _ _ _ _ _ _ _ _ => r

/-- Projection for the `enum` field. -/
def SchemaNode.enum : SchemaNode → Option (List Prim)
  | .mk _ _ _ _ _ e _ _ _ _ _ _ _ _ _ _ _ _ => e

/-- Projection for the `pattern` field. -/
def SchemaNode.pattern : SchemaNode → Option String
  | .mk _ _ _ _ _ _ p _ _ _ _ _ _ _ _ _ _ _ => p

/-- Projection for the `minimum` field. -/
def SchemaNode.minimum : SchemaNode → Option Rat
  | .mk _ _ _ _ _ _ _ m _ _ _ _ _ _ _ _ _ _ => m

/-- Projection for the `maximum` field. -/
def SchemaNode.maximum : SchemaNode → Option Rat
  | .mk _ _ _ _ _ _ _ _ m _ _ _ _ _ _ _ _ _ => m

/-- Projection for the `minLength` field. -/
def SchemaNode.minLength : SchemaNode → Option Nat
  | .mk _ _ _ _ _ _ _ _ _ m _ _ _ _ _ _ _ _ => m

/-- Projection for the `maxLength` field. -/
def SchemaNode.maxLength : SchemaNode → Option Nat
  | .mk _ _ _ _ _ _ _ _ _ _ m _ _ _ _ _ _ _ => m

/-- Projection for the `default` field. -/
def SchemaNode.default : SchemaNode → Option Json
  | .mk _ _ _ _ _ _ _ _ _ _ _ d _ _ _ _ _ _ => d

/-- Projection for the `oneOf` field. -/
def SchemaNode.oneOf : SchemaNode → Option (List SchemaNode)
  | .mk _ _ _ _ _ _ _ _ _ _ _ _ o _ _ _ _ _ => o

/-- Projection for the `anyOf` field. -/
def SchemaNode.anyOf : SchemaNode → Option (List SchemaNode)
  | .mk _ _ _ _ _ _ _ _ _ _ _ _ _ a _ _ _ _ => a

/-- Projection for the `allOf` field. -/
def SchemaNode.allOf : SchemaNode → Option (List SchemaNode)
  | .mk _ _ _ _ _ _ _ _ _ _ _ _ _ _ a _ _ _ => a

/-- Projection for the `$ref` field. -/
def SchemaNode.ref : SchemaNode → Option String
  | .mk _ _ _ _ _ _ _ _ _ _ _ _ _ _ _ r _ _ => r

/-- Projection for the `title` field. -/
def SchemaNode.title : SchemaNode → Option String
  | .mk _ _ _ _ _ _ _ _ _ _ _ _ _ _ _ _ t _ => t

/-- Projection for the `definitions` field. -/
def SchemaNode.definitions : SchemaNode → Option (List (String × SchemaNode))
  | .mk _ _ _ _ _ _ _ _ _ _ _ _ _ _ _ _ _ d => d

theorem sizeOf_lt_of_oneOf {s : SchemaNode} {l : List SchemaNode}
    (h : s.oneOf = some l) : sizeOf l < sizeOf s := by
  cases s with
  | mk t d p i r e pa mi ma mil mal df oo ao alo rf ti dfs =>
    simp [SchemaNode.oneOf] at h
    subst h
    simp
    omega

theorem sizeOf_lt_of_anyOf {s : SchemaNode} {l : List SchemaNode}
    (h : s.anyOf = some l) : sizeOf l < sizeOf s := by
  cases s with
  | mk t d p i r e pa mi ma mil mal df oo ao alo rf ti dfs =>
    simp [SchemaNode.anyOf] at h
    subst h
    simp
    omega

theorem sizeOf_lt_of_allOf {s : SchemaNode} {l : List SchemaNode}
    (h : s.allOf = some l) : sizeOf l < sizeOf s := by
  cases s with
  | mk t d p i r e pa mi ma mil mal df oo ao alo rf ti dfs =>
    simp [SchemaNode.allOf] at h
    subst h
    simp
    omega

theorem sizeOf_lt_of_properties {s : SchemaNode} {l : List (String × SchemaNode)}
    (h : s.properties = some l) : sizeOf l < sizeOf s := by
  cases s with
  | mk t d p i r e pa mi ma mil mal df oo ao alo rf ti dfs =>
    simp [SchemaNode.properties] at h
    subst h
    simp
    omega

theorem sizeOf_lt_of_items {s : SchemaNode} {it : SchemaNode}
    (h : s.items = some it) : sizeOf it < sizeOf s := by
  cases s with
  | mk t d p i r e pa mi ma mil mal df oo ao alo rf ti dfs =>
    simp [SchemaNode.items] at h
    subst h
    simp
    omega

/-- JavaScript truthiness of an optional string field (`if (schema.$ref)`
etc.): present and nonempty. -/
def strTruthy : Option String → Bool
  | some s => s != ""
  | none => false

/-- JavaScript truthiness of the `type` field (`if (schemaType)`): an absent
field and the empty string are falsy; an array (even empty) is truthy. -/
def typeTruthy : Option TypeField → Bool
  | none => false
  | some (.single t) => t != ""
  | some (.many _) => true

/-- Model of `Array.isArray(schemaType) ? schemaType : [schemaType]`. -/
def typeList : TypeField → List String
  | .single t => [t]
  | .many ts => ts

/-- Declared type names of a node (empty when the `type` field is absent;
only consulted by the validator when `typeTruthy` holds). -/
def declaredTypes : Option TypeField → List String
  | some tf => typeList tf
  | none => []

/-- Embedding of `getValueType` (json-validator.ts): `null` → "null",
arrays → "array", integral numbers → "integer", other numbers → "number",
otherwise the result of `typeof`. -/
def getValueType : Json → String
  | .null => "null"
  | .arr _ => "array"
  | .num q => if q.den = 1 then "integer" else "number"
  | .str _ => "string"
  | .bool _ => "boolean"
  | .obj _ => "object"

/-- Decimal digits of the proper fraction r/d (0 < r < d), as produced by
JavaScript number-to-string conversion.  The fuel bound is never reached for
IEEE-754 doubles, whose decimal expansions are finite. -/
def fracDigits : Nat → Nat → Nat → List Char
  | 0, _, _ => []
  | _, 0, _ => []
  | fuel + 1, r, d =>
    Nat.digitChar (r * 10 / d) :: fracDigits fuel (r * 10 % d) d

/-- Rendering of a JavaScript number by string interpolation / `String(n)`.
Exponent notation for extreme magnitudes is not modelled; it is not exercised
by any property proved below. -/
def jsNumToString (q : Rat) : String :=
  let sign := if q.num < 0 then "-" else ""
  let n := q.num.natAbs
  let ipart := n / q.den
  let r := n % q.den
  if r = 0 then sign ++ toString ipart
  else sign ++ toString ipart ++ "." ++ String.mk (fracDigits 1100 r q.den)

/-- Rendering of an enum entry by `Array.prototype.join` / `String(v)`. -/
def primToString : Prim → String
  | .s v => v
  | .n v => jsNumToString v
  | .b true => "true"
  | .b false => "false"

/-- Strict equality (`===` / `Array.prototype.includes`) between an enum
entry and a runtime value. -/
def primEqJson : Prim → Json → Bool
  | .s a, .str b => a == b
  | .n a, .num b => a == b
  | .b a, .bool b => a == b
  | _, _ => false

/-- Injection of an enum entry into the value model (used by the template
generator, which places the first enum entry into the template). -/
def primToJson : Prim → Json
  | .s v => .str v
  | .n v => .num v
  | .b v => .bool v

/-- Path of a child property: `path ? path + "." + key : key`. -/
def childPath (path key : String) : String :=
  if path = "" then key else path ++ "." ++ key

/-- Model of `ValidationError` (json-types.ts).  The `value` field is absent
exactly for required-field errors, which the source pushes without it. -/
structure VErr where
  path : String
  message : String
  value : Option Json

/-- Model of `ValidationResult` (json-types.ts). -/
structure ValidationResult where
  valid : Bool
  errors : List VErr

/-- Enum check of `validateValue`: fires whenever `enum` is present (a
JavaScript array is truthy even when empty) and the value is not strictly
equal to one of the entries. -/
def enumErrs (s : SchemaNode) (value : Json) (path : String) : List VErr :=
  match s.enum with
  | none => []
  | some es =>
    if es.any (fun e => primEqJson e value) then []
    else [⟨path, "Value must be one of: " ++ String.intercalate ", " (es.map primToString), some value⟩]

/-- Pattern check of `validateValue`: fires when `pattern` is truthy (present
and nonempty) and the value is a string; `rt` abstracts `new RegExp(p).test`. -/
def patternErrs (rt : String → String → Bool) (s : SchemaNode) (value : Json) (path : String) : List VErr :=
  match s.pattern, value with
  | some p, .str text =>
    if p != "" then
      if rt p text then []
      else [⟨path, "Value does not match pattern: " ++ p, some value⟩]
    else []
  | _, _ => []

/-- Numeric range check of `validateValue`: fires when the value is a number;
`minimum` and `maximum` are tested independently (`!== undefined`). -/
def rangeErrs (s : SchemaNode) (value : Json) (path : String) : List VErr :=
  match value with
  | .num q =>
    (match s.minimum with
     | some m => if q < m then [⟨path, "Value must be >= " ++ jsNumToString m, some value⟩] else []
     | none => []) ++
    (match s.maximum with
     | some m => if q > m then [⟨path, "Value must be <= " ++ jsNumToString m, some value⟩] else []
     | none => [])
  | _ => []

/-- String length check of `validateValue`.  JavaScript's `length` counts
UTF-16 code units; `String.length` counts characters, which agrees on all
strings without surrogate pairs. -/
def lengthErrs (s : SchemaNode) (value : Json) (path : String) : List VErr :=
  match value with
  | .str text =>
    (match s.minLength with
     | some n => if text.length < n then [⟨path, "String length must be >= " ++ toString n, some value⟩] else []
     | none => []) ++
    (match s.maxLength with
     | some n => if text.length > n then [⟨path, "String length must be <= " ++ toString n, some value⟩] else []
     | none => [])
  | _ => []

/-- Own property keys of an object value. -/
def keysOf (fields : List (String × Json)) : List String := fields.map Prod.fst

/-- Test of `typeof value === "object" && value !== null` yielding the own
fields.  The test is also satisfied by arrays, but it is only consulted under
`schemaType === "object"`, where the earlier type check has already returned
for every non-object value, so only plain objects can reach it. -/
def asObjFields : Json → Option (List (String × Json))
  | .obj fields => some fields
  | _ => none

/-- Test of `Array.isArray(value)` yielding the elements. -/
def asArrElems : Json → Option (List Json)
  | .arr elems => some elems
  | _ => none

/-- Required-field check of `validateValue`: one error per entry of
`required` that is not a key of the object, in list order.  (`field in obj`
is modelled as own-key membership of the JSON object.) -/
def requiredErrs (s : SchemaNode) (fields : List (String × Json)) (path : String) : List VErr :=
  match s.required with
  | none => []
  | some req =>
    (req.filter (fun f => !(keysOf fields).contains f)).map
      (fun f => ⟨childPath path f, "Required field missing", none⟩)

mutual

/-- Embedding of `validateValue` (json-validator.ts).  Instead of pushing
into a mutable `errors` sink, the function returns the list of errors it
pushes, in push order; the two presentations are equivalent because the sink
is append-only.  Branch order mirrors the source: `$ref` short-circuit,
`oneOf`, `anyOf`, type check with early return, then the independent enum /
pattern / range / length checks followed by the object and array structural
checks.  In the object branch, the source tests
`typeof value === "object" && value !== null`, which is also satisfied by
arrays; but since that branch additionally requires the raw `type` field to
be exactly the string `"object"`, the earlier type check has already returned
for every non-object value, so matching on `Json.obj` is equivalent. -/
def validateValue (rt : String → String → Bool) (value : Json) (s : SchemaNode) (path : String) : List VErr :=
  if strTruthy s.ref then []
  else
    match h1 : s.oneOf with
    | some subs =>
      if oneOfMatchCount rt value subs path != 1 then
        [⟨path, "Value must match exactly one of the oneOf schemas", some value⟩]
      else []
    | none =>
      match h2 : s.anyOf with
      | some subs =>
        if anyOfMatch rt value subs path then []
        else [⟨path, "Value must match at least one of the anyOf schemas", some value⟩]
      | none =>
        if typeTruthy s.typeField && !((declaredTypes s.typeField).contains (getValueType value)) then
          [⟨path, "Expected type " ++ String.intercalate " | " (declaredTypes s.typeField) ++ ", got " ++ getValueType value, some value⟩]
        else
          enumErrs s value path ++ patternErrs rt s value path ++
          rangeErrs s value path ++ lengthErrs s value path ++
          (if s.typeField = some (.single "object") then
            match asObjFields value with
            | some fields =>
              requiredErrs s fields path ++
              (match h3 : s.properties with
               | some props => validateProps rt fields props path
               | none => [])
            | none => []
          else []) ++
          (if s.typeField = some (.single "array") then
            match asArrElems value with
            | some elems =>
              (match h4 : s.items with
               | some itemSchema => validateItems rt elems 0 itemSchema path
               | none => [])
            | none => []
          else [])
termination_by (sizeOf s, 0)
decreasing_by
  · exact Prod.Lex.left _ _ (sizeOf_lt_of_oneOf h1)
  · exact Prod.Lex.left _ _ (sizeOf_lt_of_anyOf h2)
  · exact Prod.Lex.left _ _ (sizeOf_lt_of_properties h3)
  · exact Prod.Lex.left _ _ (sizeOf_lt_of_items h4)

/-- Embedding of the `oneOf` counting in `validateValue`: the number of
subschemas against which the value validates with a fresh, empty error sink
(`filter(...).length` over `subErrors.length === 0`). -/
def oneOfMatchCount (rt : String → String → Bool) (value : Json) (subs : List SchemaNode) (path : String) : Nat :=
  match subs with
  | [] => 0
  | sub :: rest =>
    (if (validateValue rt value sub path).isEmpty then 1 else 0) +
      oneOfMatchCount rt value rest path
termination_by (sizeOf subs, 0)
decreasing_by
  all_goals
    apply Prod.Lex.left
    simp
    try omega

/-- Embedding of the `anyOf` test in `validateValue` (`Array.prototype.some`
over fresh error sinks). -/
def anyOfMatch (rt : String → String → Bool) (value : Json) (subs : List SchemaNode) (path : String) : Bool :=
  match subs with
  | [] => false
  | sub :: rest =>
    (validateValue rt value sub path).isEmpty || anyOfMatch rt value rest path
termination_by (sizeOf subs, 0)
decreasing_by
  all_goals
    apply Prod.Lex.left
    simp
    try omega

/-- Embedding of the property-recursion loop of `validateValue`: for each
declared property, in declaration order, recurse when the key is present in
the object. -/
def validateProps (rt : String → String → Bool) (fields : List (String × Json)) (props : List (String × SchemaNode)) (path : String) : List VErr :=
  match props with
  | [] => []
  | (key, ps) :: rest =>
    (match fields.lookup key with
     | some v => validateValue rt v ps (childPath path key)
     | none => []) ++ validateProps rt fields rest path
termination_by (sizeOf props, 0)
decreasing_by
  all_goals
    apply Prod.Lex.left
    simp
    try omega

/-- Embedding of the array-items loop of `validateValue`: every element is
validated against the `items` schema at path `path[index]`. -/
def validateItems (rt : String → String → Bool) (elems : List Json) (idx : Nat) (itemSchema : SchemaNode) (path : String) : List VErr :=
  match elems with
  | [] => []
  | v :: rest =>
    validateValue rt v itemSchema (path ++ "[" ++ toString idx ++ "]") ++
      validateItems rt rest (idx + 1) itemSchema path
termination_by (sizeOf itemSchema, elems.length + 1)
decreasing_by
  all_goals
    apply Prod.Lex.right
    simp
    try omega

end

/-- Embedding of `validate` (json-validator.ts): run `validateValue` at the
root path and report `valid` iff the error list is empty
(`errors.length === 0`). -/
def validate (rt : String → String → Bool) (data : Json) (s : SchemaNode) : ValidationResult :=
  let errors := validateValue rt data s ""
  ⟨errors.isEmpty, errors⟩

/-- Schema node with every field absent (a bare `{}` schema object). -/
def emptySchema : SchemaNode :=
  .mk none none none none none none none none none none none none none none none none none none

/-- Functional update of the `type` field. -/
def SchemaNode.withTypeField : SchemaNode → Option TypeField → SchemaNode
  | .mk _ d p i r e pa mi ma mil mal df oo ao alo rf ti dfs, t =>
    .mk t d p i r e pa mi ma mil mal df oo ao alo rf ti dfs

/-- Functional update of the `description` field. -/
def SchemaNode.withDescr : SchemaNode → Option String → SchemaNode
  | .mk t _ p i r e pa mi ma mil mal df oo ao alo rf ti dfs, d =>
    .mk t d p i r e pa mi ma mil mal df oo ao alo rf ti dfs

/-- Functional update of the `properties` field. -/
def SchemaNode.withProperties : SchemaNode → Option (List (String × SchemaNode)) → SchemaNode
  | .mk t d _ i r e pa mi ma mil mal df oo ao alo rf ti dfs, p =>
    .mk t d p i r e pa mi ma mil mal df oo ao alo rf ti dfs

/-- Functional update of the `items` field. -/
def SchemaNode.withItems : SchemaNode → Option SchemaNode → SchemaNode
  | .mk t d p _ r e pa mi ma mil mal df oo ao alo rf ti dfs, i =>
    .mk t d p i r e pa mi ma mil mal df oo ao alo rf ti dfs

/-- Functional update of the `required` field. -/
def SchemaNode.withRequired : SchemaNode → Option (List String) → SchemaNode
  | .mk t d p i _ e pa mi ma mil mal df oo ao alo rf ti dfs, r =>
    .mk t d p i r e pa mi ma mil mal df oo ao alo rf ti dfs

/-- Functional update of the `enum` field. -/
def SchemaNode.withEnum : SchemaNode → Option (List Prim) → SchemaNode
  | .mk t d p i r _ pa mi ma mil mal df oo ao alo rf ti dfs, e =>
    .mk t d p i r e pa mi ma mil mal df oo ao alo rf ti dfs

/-- Functional update of the `pattern` field. -/
def SchemaNode.withPattern : SchemaNode → Option String → SchemaNode
  | .mk t d p i r e _ mi ma mil mal df oo ao alo rf ti dfs, pa =>
    .mk t d p i r e pa mi ma mil mal df oo ao alo rf ti dfs

/-- Functional update of the `minimum` field. -/
def SchemaNode.withMinimum : SchemaNode → Option Rat → SchemaNode
  | .mk t d p i r e pa _ ma mil mal df oo ao alo rf ti dfs, mi =>
    .mk t d p i r e pa mi ma mil mal df oo ao alo rf ti dfs

/-- Functional update of the `maximum` field. -/
def SchemaNode.withMaximum : SchemaNode → Option Rat → SchemaNode
  | .mk t d p i r e pa mi _ mil mal df oo ao alo rf ti dfs, ma =>
    .mk t d p i r e pa mi ma mil mal df oo ao alo rf ti dfs

/-- Functional update of the `minLength` field. -/
def SchemaNode.withMinLength : SchemaNode → Option Nat → SchemaNode
  | .mk t d p i r e pa mi ma _ mal df oo ao alo rf ti dfs, mil =>
    .mk t d p i r e pa mi ma mil mal df oo ao alo rf ti dfs

/-- Functional update of the `maxLength` field. -/
def SchemaNode.withMaxLength : SchemaNode → Option Nat → SchemaNode
  | .mk t d p i r e pa mi ma mil _ df oo ao alo rf ti dfs, mal =>
    .mk t d p i r e pa mi ma mil mal df oo ao alo rf ti dfs

/-- Functional update of the `default` field. -/
def SchemaNode.withDefault : SchemaNode → Option Json → SchemaNode
  | .mk t d p i r e pa mi ma mil mal _ oo ao alo rf ti dfs, df =>
    .mk t d p i r e pa mi ma mil mal df oo ao alo rf ti dfs

/-- Functional update of the `oneOf` field. -/
def SchemaNode.withOneOf : SchemaNode → Option (List SchemaNode) → SchemaNode
  | .mk t d p i r e pa mi ma mil mal df _ ao alo rf ti dfs, oo =>
    .mk t d p i r e pa mi ma mil mal df oo ao alo rf ti dfs

/-- Functional update of the `anyOf` field. -/
def SchemaNode.withAnyOf : SchemaNode → Option (List SchemaNode) → SchemaNode
  | .mk t d p i r e pa mi ma mil mal df oo _ alo rf ti dfs, ao =>
    .mk t d p i r e pa mi ma mil mal df oo ao alo rf ti dfs

/-- Functional update of the `allOf` field. -/
def SchemaNode.withAllOf : SchemaNode → Option (List SchemaNode) → SchemaNode
  | .mk t d p i r e pa mi ma mil mal df oo ao _ rf ti dfs, alo =>
    .mk t d p i r e pa mi ma mil mal df oo ao alo rf ti dfs

/-- Functional update of the `$ref` field. -/
def SchemaNode.withRef : SchemaNode → Option String → SchemaNode
  | .mk t d p i r e pa mi ma mil mal df oo ao alo _ ti dfs, rf =>
    .mk t d p i r e pa mi ma mil mal df oo ao alo rf ti dfs

/-- Functional update of the `title` field. -/
def SchemaNode.withTitle : SchemaNode → Option String → SchemaNode
  | .mk t d p i r e pa mi ma mil mal df oo ao alo rf _ dfs, ti =>
    .mk t d p i r e pa mi ma mil mal df oo ao alo rf ti dfs

/-- Functional update of the `definitions` field. -/
def SchemaNode.withDefinitions : SchemaNode → Option (List (String × SchemaNode)) → SchemaNode
  | .mk t d p i r e pa mi ma mil mal df oo ao alo rf ti _, dfs =>
    .mk t d p i r e pa mi ma mil mal df oo ao alo rf ti dfs

/-- Concrete total regex matcher, used to instantiate the abstract matcher
`rt` in counterexamples and witnesses whose schemas carry no `pattern`. -/
def rtTrue : String → String → Bool := fun _ _ => true

mutual

/-- Embedding of `generateFromSchema` (template-generator.ts): an "array"
schema yields an empty array; a non-"object" schema, or an object schema
without `properties`, yields an empty object; otherwise an object is built
from the per-property default rules in property declaration order. -/
def generateFromSchema (s : SchemaNode) : Json :=
  if s.typeField = some (.single "array") then .arr []
  else if s.typeField = some (.single "object") then
    match h1 : s.properties with
    | some props => .obj (templateProps props)
    | none => .obj []
  else .obj []
termination_by (sizeOf s, 0)
decreasing_by
  exact Prod.Lex.left _ _ (sizeOf_lt_of_properties h1)

/-- Property loop of `generateFromSchema`, preserving declaration order. -/
def templateProps (props : List (String × SchemaNode)) : List (String × Json) :=
  match props with
  | [] => []
  | (key, ps) :: rest => (key, templateValue ps) :: templateProps rest
termination_by (sizeOf props, 2)
decreasing_by
  all_goals
    apply Prod.Lex.left
    simp
    try omega

/-- Per-property value of `generateFromSchema`: explicit `default` first,
else the first enum entry when `enum` is present and nonempty, else dispatch
on the raw `type` field by strict string comparison (so a list-form `type`
falls through to `null`); an "object"-typed property recurses. -/
def templateValue (ps : SchemaNode) : Json :=
  match ps.default with
  | some d => d
  | none =>
    match ps.enum with
    | some (e :: _) => primToJson e
    | _ =>
      if ps.typeField = some (.single "string") then .str ""
      else if ps.typeField = some (.single "number") ∨ ps.typeField = some (.single "integer") then
        .num (ps.minimum.getD 0)
      else if ps.typeField = some (.single "boolean") then .bool false
      else if ps.typeField = some (.single "array") then .arr []
      else if ps.typeField = some (.single "object") then generateFromSchema ps
      else .null
termination_by (sizeOf ps, 1)
decreasing_by
  exact Prod.Lex.right _ (by omega)

end

mutual

/-- Restatement of claim C6's template rules, written from the claim's own
words for refinement comparison with `generateFromSchema`: at the root an
"array" schema yields `[]` regardless of `items`, an "object" root with a
properties map yields an object built per property in declaration order, and
any other root yields `{}`. -/
def claimTemplate (s : SchemaNode) : Json :=
  if s.typeField = some (.single "array") then .arr []
  else
    match h1 : s.typeField, h2 : s.properties with
    | some (.single "object"), some props => .obj (claimTemplateProps props)
    | _, _ => .obj []
termination_by (sizeOf s, 0)
decreasing_by
  exact Prod.Lex.left _ _ (sizeOf_lt_of_properties h2)

/-- Property loop of `claimTemplate`, preserving declaration order. -/
def claimTemplateProps (props : List (String × SchemaNode)) : List (String × Json) :=
  match props with
  | [] => []
  | (key, ps) :: rest => (key, claimTemplateValue ps) :: claimTemplateProps rest
termination_by (sizeOf props, 2)
decreasing_by
  all_goals
    apply Prod.Lex.left
    simp
    try omega

/-- Per-property rule of claim C6: explicit default used verbatim; else
first enum element when enum is non-empty; else by declared type — string →
"", number/integer → minimum if declared else 0, boolean → false, array →
[], object → recursively generated nested template, anything else → null. -/
def claimTemplateValue (ps : SchemaNode) : Json :=
  match ps.default with
  | some d => d
  | none =>
    match ps.enum with
    | some (e :: _) => primToJson e
    | _ =>
      match ps.typeField with
      | some (.single "string") => .str ""
      | some (.single "number") => .num (ps.minimum.getD 0)
      | some (.single "integer") => .num (ps.minimum.getD 0)
      | some (.single "boolean") => .bool false
      | some (.single "array") => .arr []
      | some (.single "object") => claimTemplate ps
      | _ => .null
termination_by (sizeOf ps, 1)
decreasing_by
  exact Prod.Lex.right _ (by omega)

end

/-- First pass of `toPascalCase`/`toCamelCase`: the global regex replacement
`replace(/[-_](.)/g, (_, c) => c.toUpperCase())`, which consumes a dash or
underscore together with the following character and uppercases the latter,
scanning left to right without overlap. -/
def dashUnderscoreFold : List Char → List Char
  | [] => []
  | [c] => [c]
  | c1 :: c2 :: rest =>
    if c1 = '-' ∨ c1 = '_' then c2.toUpper :: dashUnderscoreFold rest
    else c1 :: dashUnderscoreFold (c2 :: rest)

/-- Second pass of `toPascalCase`: `replace(/^(.)/, (_, c) => c.toUpperCase())`. -/
def upperFirst : List Char → List Char
  | [] => []
  | c :: rest => c.toUpper :: rest

/-- Second pass of `toCamelCase`: `replace(/^(.)/, (_, c) => c.toLowerCase())`. -/
def lowerFirst : List Char → List Char
  | [] => []
  | c :: rest => c.toLower :: rest

/-- Embedding of `toPascalCase` (type-generator.ts). -/
def toPascalCase (s : String) : String :=
  String.mk (upperFirst (dashUnderscoreFold s.data))

/-- Embedding of `toCamelCase` (type-generator.ts). -/
def toCamelCase (s : String) : String :=
  String.mk (lowerFirst (dashUnderscoreFold s.data))

/-- Escape of one character inside a JSON string literal, as produced by
`JSON.stringify` (the `\uXXXX` forms for other control characters are not
modelled; they are not exercised by any property proved below). -/
def escapeJsonChar (c : Char) : String :=
  if c = '"' then "\\\""
  else if c = '\\' then "\\\\"
  else if c = '\n' then "\\n"
  else if c = '\r' then "\\r"
  else if c = '\t' then "\\t"
  else String.mk [c]

/-- Rendering of a string as a JSON string literal (`JSON.stringify`). -/
def jsonStringifyString (s : String) : String :=
  "\"" ++ String.join (s.data.map escapeJsonChar) ++ "\""

mutual

/-- Embedding of `JSON.stringify` on the value model (used by
`getDefaultValue` and `generateClass` for `default` and `enum` values). -/
def jsonStringify : Json → String
  | .null => "null"
  | .bool true => "true"
  | .bool false => "false"
  | .num q => jsNumToString q
  | .str s => jsonStringifyString s
  | .arr elems => "[" ++ String.intercalate "," (jsonStringifyList elems) ++ "]"
  | .obj fields => "\x7b" ++ String.intercalate "," (jsonStringifyFields fields) ++ "\x7d"
termination_by j => (sizeOf j, 0)
decreasing_by
  all_goals
    apply Prod.Lex.left
    simp
    try omega

/-- Element loop of `jsonStringify` on arrays. -/
def jsonStringifyList : List Json → List String
  | [] => []
  | v :: rest => jsonStringify v :: jsonStringifyList rest
termination_by l => (sizeOf l, 0)
decreasing_by
  all_goals
    apply Prod.Lex.left
    simp
    try omega

/-- Field loop of `jsonStringify` on objects. -/
def jsonStringifyFields : List (String × Json) → List String
  | [] => []
  | (k, v) :: rest =>
    (jsonStringifyString k ++ ":" ++ jsonStringify v) :: jsonStringifyFields rest
termination_by l => (sizeOf l, 0)
decreasing_by
  all_goals
    apply Prod.Lex.left
    simp
    try omega

end

/-- Rendering of one enum entry inside `schemaTypeToTs`:
`typeof v === "string" ? nobreak-quoted : String(v)`. -/
def enumLiteralTs : Prim → String
  | .s v => "\"" ++ v ++ "\""
  | other => primToString other

/-- Embedding of the `$ref` branch of `schemaTypeToTs`:
`toPascalCase(prop.$ref.split("/").pop() || "unknown")`. -/
def refTypeName (r : String) : String :=
  match (r.splitOn "/").getLast? with
  | some last => if last = "" then toPascalCase "unknown" else toPascalCase last
  | none => toPascalCase "unknown"

mutual

/-- Embedding of `schemaTypeToTs` (type-generator.ts): enum union first, then
truthy `$ref`, then `oneOf`/`anyOf` unions, `allOf` intersections, and
finally the per-type-name mapping over `Array.isArray(prop.type) ? prop.type
: [prop.type]` joined with " | ". -/
def schemaTypeToTs (p : SchemaNode) : String :=
  match p.enum with
  | some es => String.intercalate " | " (es.map enumLiteralTs)
  | none =>
    if strTruthy p.ref then refTypeName (p.ref.getD "")
    else
      match h1 : p.oneOf with
      | some subs => String.intercalate " | " (tsList subs)
      | none =>
        match h2 : p.anyOf with
        | some subs => String.intercalate " | " (tsList subs)
        | none =>
          match h3 : p.allOf with
          | some subs => String.intercalate " & " (tsList subs)
          | none => String.intercalate " | " (tsTypeNames p)
termination_by (sizeOf p, 3, 0)
decreasing_by
  · exact Prod.Lex.left _ _ (sizeOf_lt_of_oneOf h1)
  · exact Prod.Lex.left _ _ (sizeOf_lt_of_anyOf h2)
  · exact Prod.Lex.left _ _ (sizeOf_lt_of_allOf h3)
  · exact Prod.Lex.right _ (Prod.Lex.left _ _ (by omega))

/-- Mapping of the raw `type` field of a node to the list of TypeScript type
names: a missing `type` becomes the one-element list for `[undefined]`, whose
switch falls through to "unknown". -/
def tsTypeNames (p : SchemaNode) : List String :=
  match p.typeField with
  | some (.single t) => [tsTypeName p t]
  | some (.many ts) => tsTypeNameList p ts
  | none => ["unknown"]
termination_by (sizeOf p, 2, 0)
decreasing_by
  · exact Prod.Lex.right _ (Prod.Lex.left _ _ (by omega))
  · exact Prod.Lex.right _ (Prod.Lex.left _ _ (by omega))

/-- Loop mapping `tsTypeName` over a list-form `type` field. -/
def tsTypeNameList (p : SchemaNode) (ts : List String) : List String :=
  match ts with
  | [] => []
  | t :: rest => tsTypeName p t :: tsTypeNameList p rest
termination_by (sizeOf p, 1, ts.length)
decreasing_by
  · exact Prod.Lex.right _ (Prod.Lex.left _ _ (by omega))
  · exact Prod.Lex.right _ (Prod.Lex.right _ (by simp))

/-- Switch of `schemaTypeToTs` over one type name: primitives map to the
TypeScript primitive, "array" maps to an item-typed or unknown array, and
"object" maps to "object" when `properties` is present (the use site is then
expected to have been replaced by a hoisted name, see `generateInterface`)
or to an open record otherwise. -/
def tsTypeName (p : SchemaNode) (t : String) : String :=
  if t = "string" then "string"
  else if t = "number" ∨ t = "integer" then "number"
  else if t = "boolean" then "boolean"
  else if t = "null" then "null"
  else if t = "array" then
    match h4 : p.items with
    | some it => schemaTypeToTs it ++ "[]"
    | none => "unknown[]"
  else if t = "object" then
    if p.properties.isSome then "object" else "Record<string, unknown>"
  else "unknown"
termination_by (sizeOf p, 0, 0)
decreasing_by
  exact Prod.Lex.left _ _ (sizeOf_lt_of_items h4)

/-- Loop mapping `schemaTypeToTs` over combinator subschemas. -/
def tsList (subs : List SchemaNode) : List String :=
  match subs with
  | [] => []
  | a :: rest => schemaTypeToTs a :: tsList rest
termination_by (sizeOf subs, 3, 0)
decreasing_by
  · apply Prod.Lex.left
    simp
    try omega
  · apply Prod.Lex.left
    simp
    try omega

end

/-- Property-line loop of `generateInterface`: optional JSDoc line, then
`propName?: tsType;` where the `?` is dropped for required properties and a
nested object-with-properties property is referenced by the hoisted name
`name + PascalCase(propName)` instead of its inline type. -/
def interfaceProps (props : List (String × SchemaNode)) (name indent : String)
    (includeDescriptions : Bool) (required : List String) : List String :=
  match props with
  | [] => []
  | (propName, propSchema) :: rest =>
    (if includeDescriptions && strTruthy propSchema.descr then
      [indent ++ "/** " ++ propSchema.descr.getD "" ++ " */"]
    else []) ++
    [indent ++ propName ++ (if required.contains propName then "" else "?") ++ ": " ++
      (if propSchema.typeField = some (.single "object") ∧ propSchema.properties.isSome then
        name ++ toPascalCase propName
      else schemaTypeToTs propSchema) ++ ";"] ++
    interfaceProps rest name indent includeDescriptions required

/-- Embedding of `generateInterface` (type-generator.ts): one interface
declaration, with an optional JSDoc block from `description` and one line per
declared property. -/
def generateInterface (schema : SchemaNode) (name indent : String)
    (includeDescriptions : Bool) : List String :=
  (if includeDescriptions && strTruthy schema.descr then
    ["/**", " * " ++ schema.descr.getD "", " */"]
  else []) ++
  ["export interface " ++ name ++ " \x7b"] ++
  (match schema.properties with
   | some props => interfaceProps props name indent includeDescriptions (schema.required.getD [])
   | none => []) ++
  ["\x7d"]

/-- Loop of `generateTypeScript` over root `definitions`, hoisting each into
an interface named by the PascalCase definition key. -/
def definitionsInterfaces (defs : List (String × SchemaNode)) (indent : String)
    (includeDescriptions : Bool) : List String :=
  match defs with
  | [] => []
  | (name, defSchema) :: rest =>
    generateInterface defSchema (toPascalCase name) indent includeDescriptions ++ [""] ++
    definitionsInterfaces rest indent includeDescriptions

/-- Loop of `generateTypeScript` over the root properties, hoisting each
property whose schema is `type: "object"` with its own `properties` into a
separate interface named `exportName + PascalCase(propName)`. -/
def nestedPropertyInterfaces (props : List (String × SchemaNode)) (exportName indent : String)
    (includeDescriptions : Bool) : List String :=
  match props with
  | [] => []
  | (propName, propSchema) :: rest =>
    (if propSchema.typeField = some (.single "object") ∧ propSchema.properties.isSome then
      generateInterface propSchema (exportName ++ toPascalCase propName) indent includeDescriptions ++ [""]
    else []) ++
    nestedPropertyInterfaces rest exportName indent includeDescriptions

/-- Resolution of the `exportName` option default:
`schema.title ? toPascalCase(schema.title) : fallback`. -/
def resolveExportName (opt : Option String) (schema : SchemaNode) (fallback : String) : String :=
  match opt with
  | some n => n
  | none =>
    match schema.title with
    | some t => if t != "" then toPascalCase t else fallback
    | none => fallback

/-- Embedding of `generateTypeScript` (type-generator.ts) as the list of
lines it pushes; the returned source is these lines joined with newlines.
The generation timestamp `new Date().toISOString()` is abstracted as the
parameter `now`. -/
def generateTypeScriptLines (now : String) (schema : SchemaNode)
    (exportNameOpt : Option String) (includeDescriptions : Bool) (indentSize : Nat) : List String :=
  let exportName := resolveExportName exportNameOpt schema "GeneratedType"
  let indent := String.mk (List.replicate indentSize ' ')
  ["/**", " * Auto-generated TypeScript interface from JSON Schema",
   " * Generated: " ++ now] ++
  (if strTruthy schema.title then [" * Schema: " ++ schema.title.getD ""] else []) ++
  [" */", ""] ++
  (match schema.definitions with
   | some defs => definitionsInterfaces defs indent includeDescriptions
   | none => []) ++
  (match schema.properties with
   | some props => nestedPropertyInterfaces props exportName indent includeDescriptions
   | none => []) ++
  generateInterface schema exportName indent includeDescriptions ++ [""] ++
  ["export default " ++ exportName ++ ";"]

/-- Embedding of `generateTypeScript`: the generated source text. -/
def generateTypeScript (now : String) (schema : SchemaNode)
    (exportNameOpt : Option String) (includeDescriptions : Bool) (indentSize : Nat) : String :=
  String.intercalate "\n" (generateTypeScriptLines now schema exportNameOpt includeDescriptions indentSize)

/-- First type name of a node as used by the class generator:
`Array.isArray(prop.type) ? prop.type[0] : prop.type` — the first element of
a list-form `type`, or the single string; `none` when absent or when the
list is empty (`[][0]` is `undefined`). -/
def firstTypeName (prop : SchemaNode) : Option String :=
  match prop.typeField with
  | some (.many ts) => ts.head?
  | some (.single t) => some t
  | none => none

/-- Embedding of `getDefaultValue` (type-generator.ts): `JSON.stringify` of
an explicit `default`, else of the first enum entry when `enum` is present
and nonempty, else a per-type literal where a list-form `type` contributes
only its first element (`prop.type[0]`) and unrecognized or missing types
fall through to "null". -/
def getDefaultValue (prop : SchemaNode) : String :=
  match prop.default with
  | some d => jsonStringify d
  | none =>
    match prop.enum with
    | some (e :: _) => jsonStringify (primToJson e)
    | _ =>
      match firstTypeName prop with
      | some "string" => "\"\""
      | some "number" => jsNumToString (prop.minimum.getD 0)
      | some "integer" => jsNumToString (prop.minimum.getD 0)
      | some "boolean" => "false"
      | some "array" => "[]"
      | some "object" => "\x7b\x7d"
      | some "null" => "null"
      | _ => "null"

/-- Model of `Array.from(new Set(list))`: deduplication preserving first
insertion order. -/
def insertionDedup (l : List String) : List String :=
  l.foldl (fun acc a => if acc.contains a then acc else acc ++ [a]) []

/-- Constructor-assignment loop of `generateClass`: each declared property is
assigned from the input under its original name, with `getDefaultValue` as
fallback, onto the camelCase field. -/
def classCtorLines (props : List (String × SchemaNode)) (indent : String) : List String :=
  match props with
  | [] => []
  | (propName, propSchema) :: rest =>
    (indent ++ indent ++ "this." ++ toCamelCase propName ++ " = data." ++ propName ++
      " !== undefined ? data." ++ propName ++ " : " ++ getDefaultValue propSchema ++ ";") ::
    classCtorLines rest indent

/-- Required-presence checks of the generated `validate()` method, iterating
`Array.from(new Set(required))`. -/
def classRequiredChecks (req : List String) (indent : String) : List String :=
  match req with
  | [] => []
  | propName :: rest =>
    [indent ++ indent ++ "if (this." ++ toCamelCase propName ++ " === undefined || this." ++
       toCamelCase propName ++ " === null) \x7b",
     indent ++ indent ++ indent ++ "errors.push(\x7b path: \"" ++ propName ++
       "\", message: \"Missing required field: " ++ propName ++ "\" \x7d);",
     indent ++ indent ++ "\x7d"] ++
    classRequiredChecks rest indent

/-- Per-property constraint checks of the generated `validate()` method:
string `minLength` (skipped when 0, which is falsy), numeric `minimum`
(tested with `!== undefined`) and `enum` membership; the `type` used is the
first element of a list-form `type` field. -/
def classPropChecks (props : List (String × SchemaNode)) (indent : String) : List String :=
  match props with
  | [] => []
  | (propName, propSchema) :: rest =>
    (let camelName := toCamelCase propName
     let t : Option String := firstTypeName propSchema
     (if t = some "string" ∧ propSchema.minLength.getD 0 ≠ 0 then
       [indent ++ indent ++ "if (typeof this." ++ camelName ++ " === \"string\" && this." ++
          camelName ++ ".length < " ++ toString (propSchema.minLength.getD 0) ++ ") \x7b",
        indent ++ indent ++ indent ++ "errors.push(\x7b path: \"" ++ propName ++
          "\", message: \"String must be at least " ++ toString (propSchema.minLength.getD 0) ++
          " characters\" \x7d);",
        indent ++ indent ++ "\x7d"]
     else []) ++
     (if (t = some "number" ∨ t = some "integer") ∧ propSchema.minimum.isSome then
       [indent ++ indent ++ "if (typeof this." ++ camelName ++ " === \"number\" && this." ++
          camelName ++ " < " ++ jsNumToString (propSchema.minimum.getD 0) ++ ") \x7b",
        indent ++ indent ++ indent ++ "errors.push(\x7b path: \"" ++ propName ++
          "\", message: \"Value must be at least " ++ jsNumToString (propSchema.minimum.getD 0) ++
          "\" \x7d);",
        indent ++ indent ++ "\x7d"]
     else []) ++
     (match propSchema.enum with
      | some es =>
        [indent ++ indent ++ "if (" ++ jsonStringify (.arr (es.map primToJson)) ++
           ".indexOf(this." ++ camelName ++ ") === -1) \x7b",
         indent ++ indent ++ indent ++ "errors.push(\x7b path: \"" ++ propName ++
           "\", message: \"Value must be one of: " ++
           String.intercalate ", " (es.map primToString) ++ "\" \x7d);",
         indent ++ indent ++ "\x7d"]
      | none => [])) ++
    classPropChecks rest indent

/-- Field lines of the generated `toJSON()` method, re-emitting original
property names from camelCase fields, comma-separated except the last. -/
def classToJsonLines (props : List String) (indent : String) : List String :=
  match props with
  | [] => []
  | [propName] =>
    [indent ++ indent ++ indent ++ propName ++ ": this." ++ toCamelCase propName]
  | propName :: rest =>
    (indent ++ indent ++ indent ++ propName ++ ": this." ++ toCamelCase propName ++ ",") ::
    classToJsonLines rest indent

/-- Embedding of `generateClass` (type-generator.ts): the lines of one
generated ES5 class — JSDoc, constructor with per-property defaults,
`validate()`, `toJSON()` and static `fromJSON`. -/
def generateClass (schema : SchemaNode) (name indent : String)
    (includeDescriptions : Bool) : List String :=
  let props := schema.properties.getD []
  let required := schema.required.getD []
  (if includeDescriptions && strTruthy schema.descr then
    ["/**", " * " ++ schema.descr.getD "", " */"]
  else []) ++
  ["class " ++ name ++ " \x7b",
   indent ++ "/**",
   indent ++ " * Create a new " ++ name ++ " instance",
   indent ++ " * @param \x7bObject\x7d [data=\x7b\x7d] - Initial data",
   indent ++ " */",
   indent ++ "constructor(data) \x7b",
   indent ++ indent ++ "data = data || \x7b\x7d;"] ++
  classCtorLines props indent ++
  [indent ++ "\x7d", "",
   indent ++ "/**",
   indent ++ " * Validate the instance",
   indent ++ " * @returns \x7b\x7b valid: boolean, errors: Array<\x7b path: string, message: string \x7d> \x7d\x7d",
   indent ++ " */",
   indent ++ "validate() \x7b",
   indent ++ indent ++ "var errors = [];"] ++
  classRequiredChecks (insertionDedup required) indent ++
  classPropChecks props indent ++
  [indent ++ indent ++ "return \x7b valid: errors.length === 0, errors: errors \x7d;",
   indent ++ "\x7d", "",
   indent ++ "/**",
   indent ++ " * Convert to plain object",
   indent ++ " * @returns \x7bObject\x7d",
   indent ++ " */",
   indent ++ "toJSON() \x7b",
   indent ++ indent ++ "return \x7b"] ++
  classToJsonLines (props.map Prod.fst) indent ++
  [indent ++ indent ++ "\x7d;",
   indent ++ "\x7d", "",
   indent ++ "/**",
   indent ++ " * Create instance from plain object",
   indent ++ " * @param \x7bObject\x7d json - Plain object",
   indent ++ " * @returns \x7b" ++ name ++ "\x7d",
   indent ++ " */",
   indent ++ "static fromJSON(json) \x7b",
   indent ++ indent ++ "return new " ++ name ++ "(json);",
   indent ++ "\x7d",
   "\x7d"]

theorem ne_of_head_ne {s t : String} (h : s.data.head? ≠ t.data.head?) : s ≠ t := by
  intro he
  exact h (by rw [he])

theorem string_append_head {a : String} {c : Char} (x : String)
    (ha : a.data.head? = some c) : (a ++ x).data.head? = some c := by
  rw [String.data_append, List.head?_append, ha]
  rfl

theorem data_childPath (p k : String) (hp : p ≠ "") :
    (childPath p k).data = (p.data ++ ['.']) ++ k.data := by
  simp [childPath, hp, String.data_append]

theorem childPath_ne_empty (p k : String) (h : p = "" → k ≠ "") : childPath p k ≠ "" := by
  by_cases hp : p = ""
  · simpa [childPath, hp] using h hp
  · intro hc
    have hd := congrArg String.data hc
    rw [data_childPath p k hp] at hd
    simp at hd

theorem childPath_inj {p k k' : String} (h : childPath p k = childPath p k') : k = k' := by
  by_cases hp : p = ""
  · simpa [childPath, hp] using h
  · have := congrArg String.data h
    rw [data_childPath p k hp, data_childPath p k' hp] at this
    have := List.append_cancel_left this
    cases k
    cases k'
    simp_all [String.data]

/-- Classification of an error by where `validateValue` can produce it: at
the node's own path with a non-required-field message, or somewhere strictly
below the node's path (after a `.` for a property step or a `[` for an array
index step). -/
def pathOk (p : String) (e : VErr) : Prop :=
  (e.path = p ∧ e.message ≠ "Required field missing") ∨
  (p.data ++ ['.']) <+: e.path.data ∨
  (p.data ++ ['[']) <+: e.path.data

theorem enumErrs_head : ∀ {s v p e}, e ∈ enumErrs s v p →
    e.path = p ∧ e.message.data.head? = some 'V' := by
  intro s v p e he
  unfold enumErrs at he
  split at he
  · simp at he
  · split at he
    · simp at he
    · simp at he
      subst he
      exact ⟨rfl, string_append_head _ rfl⟩

theorem patternErrs_head : ∀ {rt s v p e}, e ∈ patternErrs rt s v p →
    e.path = p ∧ e.message.data.head? = some 'V' := by
  intro rt s v p e he
  unfold patternErrs at he
  split at he
  · split at he
    · split at he
      · simp at he
      · simp at he
        subst he
        exact ⟨rfl, string_append_head _ rfl⟩
    · simp at he
  · simp at he

theorem rangeErrs_head : ∀ {s v p e}, e ∈ rangeErrs s v p →
    e.path = p ∧ e.message.data.head? = some 'V' := by
  intro s v p e he
  unfold rangeErrs at he
  split at he
  case _ q =>
    rw [List.mem_append] at he
    rcases he with he | he <;> split at he
    · split at he
      · simp at he
        subst he
        exact ⟨rfl, string_append_head _ rfl⟩
      · simp at he
    · simp at he
    · split at he
      · simp at he
        subst he
        exact ⟨rfl, string_append_head _ rfl⟩
      · simp at he
    · simp at he
  · simp at he

theorem lengthErrs_head : ∀ {s v p e}, e ∈ lengthErrs s v p →
    e.path = p ∧ e.message.data.head? = some 'S' := by
  intro s v p e he
  unfold lengthErrs at he
  split at he
  case _ text =>
    rw [List.mem_append] at he
    rcases he with he | he <;> split at he
    · split at he
      · simp at he
        subst he
        exact ⟨rfl, string_append_head _ rfl⟩
      · simp at he
    · simp at he
    · split at he
      · simp at he
        subst he
        exact ⟨rfl, string_append_head _ rfl⟩
      · simp at he
    · simp at he
  · simp at he

theorem string_append_ne_empty {p : String} (x : String) (hp : p ≠ "") : p ++ x ≠ "" := by
  intro h
  have hd := congrArg String.data h
  rw [String.data_append, show ("" : String).data = [] from rfl] at hd
  exact hp (String.ext (List.append_eq_nil.mp hd).1)

theorem requiredErrs_pathOk {s : SchemaNode} {fields : List (String × Json)} {p : String} {e : VErr}
    (hp : p ≠ "") (he : e ∈ requiredErrs s fields p) :
    (p.data ++ ['.']) <+: e.path.data := by
  unfold requiredErrs at he
  split at he
  · simp at he
  · simp only [List.mem_map] at he
    rcases he with ⟨f, -, he⟩
    subst he
    show (p.data ++ ['.']) <+: (childPath p f).data
    rw [data_childPath _ _ hp]
    exact List.prefix_append _ _

theorem itemPath_extends (p : String) (idx : Nat) :
    (p.data ++ ['[']) <+: (p ++ "[" ++ toString idx ++ "]").data := by
  have h : (p ++ "[" ++ toString idx ++ "]").data =
      (p.data ++ ['[']) ++ ((toString idx).data ++ "]".data) := by
    simp [String.data_append]
  rw [h]
  exact List.prefix_append _ _

theorem validateValue_pathOk (rt : String → String → Bool) :
    ∀ (v : Json) (s : SchemaNode) (p : String), p ≠ "" →
      ∀ e ∈ validateValue rt v s p, pathOk p e := by
  refine validateValue.induct rt
    (fun v s p => p ≠ "" → ∀ e ∈ validateValue rt v s p, pathOk p e)
    (fun elems idx it p => p ≠ "" → ∀ e ∈ validateItems rt elems idx it p,
      (p.data ++ ['[']) <+: e.path.data)
    (fun fields props p => p ≠ "" → ∀ e ∈ validateProps rt fields props p,
      (p.data ++ ['.']) <+: e.path.data)
    (fun _ _ _ => True) (fun _ _ _ => True)
    ?_ ?_ ?_ ?_ ?_ ?_ ?_ ?_ ?_ ?_ ?_ ?_ ?_ ?_ ?_
  · intro v s p h hp e he
    simp [validateValue, h] at he
  · intro v s p href subs hone hcount _ hp e he
    simp only [validateValue, href, Bool.false_eq_true, if_false] at he
    split at he
    case _ subs2 heq =>
      rw [hone] at heq
      injection heq with heq2
      subst heq2
      rw [if_pos hcount] at he
      simp at he
      subst he
      exact Or.inl ⟨rfl, by simp⟩
    case _ heq =>
      rw [hone] at heq
      cases heq
  · intro v s p href subs hone hcount _ hp e he
    simp only [validateValue, href, Bool.false_eq_true, if_false] at he
    split at he
    case _ subs2 heq =>
      rw [hone] at heq
      injection heq with heq2
      subst heq2
      rw [if_neg hcount] at he
      simp at he
    case _ heq =>
      rw [hone] at heq
      cases heq
  · intro v s p href hone subs hany hmatch _ hp e he
    simp only [validateValue, href, Bool.false_eq_true, if_false] at he
    split at he
    case _ subs2 heq =>
      rw [hone] at heq
      cases heq
    case _ heq =>
      split at he
      case _ subs2 heq2 =>
        rw [hany] at heq2
        injection heq2 with heq3
        subst heq3
        rw [if_pos hmatch] at he
        simp at he
      case _ heq2 =>
        rw [hany] at heq2
        cases heq2
  · intro v s p href hone subs hany hmatch _ hp e he
    simp only [validateValue, href, Bool.false_eq_true, if_false] at he
    split at he
    case _ subs2 heq =>
      rw [hone] at heq
      cases heq
    case _ heq =>
      split at he
      case _ subs2 heq2 =>
        rw [hany] at heq2
        injection heq2 with heq3
        subst heq3
        rw [if_neg hmatch] at he
        simp at he
        subst he
        exact Or.inl ⟨rfl, by simp⟩
      case _ heq2 =>
        rw [hany] at heq2
        cases heq2
  · intro v s p href hone hany htype hp e he
    simp only [validateValue, href, Bool.false_eq_true, if_false] at he
    split at he
    case _ subs2 heq =>
      rw [hone] at heq
      cases heq
    case _ =>
      split at he
      case _ subs2 heq2 =>
        rw [hany] at heq2
        cases heq2
      case _ =>
        split at he
        · simp at he
          subst he
          refine Or.inl ⟨rfl, ne_of_head_ne ?_⟩
          show ("Expected type " ++ String.intercalate " | " (declaredTypes s.typeField) ++ ", got " ++ getValueType v).data.head? ≠ "Required field missing".data.head?
          have h3 : ((("Expected type " ++ String.intercalate " | " (declaredTypes s.typeField)) ++ ", got ") ++ getValueType v).data.head? = some 'E' :=
            string_append_head _ (string_append_head _ (string_append_head _ rfl))
          simp only [← String.append_assoc] at h3 ⊢
          rw [h3]
          decide
        · exfalso
          simp_all
  · intro v s p href hone hany htype ihprops ihitems hp e he
    simp only [validateValue, href, Bool.false_eq_true, if_false] at he
    split at he
    case _ subs2 heq =>
      rw [hone] at heq
      cases heq
    case _ =>
    split at he
    case _ subs2 heq2 =>
      rw [hany] at heq2
      cases heq2
    case _ =>
    split at he
    case _ hcond =>
      exfalso
      simp_all
    case _ hcond =>
    simp only [List.mem_append] at he
    rcases he with ((((he | he) | he) | he) | he) | he
    · rcases enumErrs_head he with ⟨h1, h2⟩
      exact Or.inl ⟨h1, ne_of_head_ne (by rw [h2]; decide)⟩
    · rcases patternErrs_head he with ⟨h1, h2⟩
      exact Or.inl ⟨h1, ne_of_head_ne (by rw [h2]; decide)⟩
    · rcases rangeErrs_head he with ⟨h1, h2⟩
      exact Or.inl ⟨h1, ne_of_head_ne (by rw [h2]; decide)⟩
    · rcases lengthErrs_head he with ⟨h1, h2⟩
      exact Or.inl ⟨h1, ne_of_head_ne (by rw [h2]; decide)⟩
    · split at he
      · split at he
        case _ fields heqv =>
          rw [List.mem_append] at he
          rcases he with he | he
          · exact Or.inr (Or.inl (requiredErrs_pathOk hp he))
          · split at he
            case _ props hprops =>
              exact Or.inr (Or.inl (ihprops fields props hprops hp e he))
            case _ => simp at he
        case _ => simp at he
      · simp at he
    · split at he
      · split at he
        case _ elems heqv =>
          split at he
          case _ itemSchema hitems =>
            exact Or.inr (Or.inr (ihitems elems itemSchema hitems hp e he))
          case _ => simp at he
        case _ => simp at he
      · simp at he
  · intro idx it p hp e he
    simp [validateItems] at he
  · intro idx it p v rest ih1 ih2 hp e he
    rw [validateItems] at he
    rw [List.mem_append] at he
    rcases he with he | he
    · have hp' : (p ++ "[" ++ toString idx ++ "]") ≠ "" := by
        have h0 : p ++ "[" ++ toString idx ++ "]" = p ++ ("[" ++ toString idx ++ "]") := by
          simp [String.append_assoc]
        rw [h0]
        exact string_append_ne_empty _ hp
      rcases ih1 hp' e he with ⟨h1, -⟩ | h1 | h1
      · rw [h1]
        exact itemPath_extends p idx
      · exact List.IsPrefix.trans (List.IsPrefix.trans (itemPath_extends p idx) (List.prefix_append _ _)) h1
      · exact List.IsPrefix.trans (List.IsPrefix.trans (itemPath_extends p idx) (List.prefix_append _ _)) h1
    · exact ih2 hp e he
  · intro fields p hp e he
    simp [validateProps] at he
  · intro fields p key ps rest ih1 ih2 hp e he
    rw [validateProps] at he
    rw [List.mem_append] at he
    rcases he with he | he
    · split at he
      case _ v hv =>
        have hcne : childPath p key ≠ "" := childPath_ne_empty p key (fun h0 => absurd h0 hp)
        have hpref : (p.data ++ ['.']) <+: (childPath p key).data := by
          rw [data_childPath _ _ hp]
          exact List.prefix_append _ _
        rcases ih1 v hcne e he with ⟨h1, -⟩ | h1 | h1
        · rw [h1]
          exact hpref
        · exact List.IsPrefix.trans (List.IsPrefix.trans hpref (List.prefix_append _ _)) h1
        · exact List.IsPrefix.trans (List.IsPrefix.trans hpref (List.prefix_append _ _)) h1
      case _ => simp at he
    · exact ih2 hp e he
  · intro v p
    trivial
  · intro v p sub rest _ _
    trivial
  · intro v p
    trivial
  · intro v p sub rest _ _
    trivial

theorem validateValue_obj_plain (rt : String → String → Bool)
    (fields : List (String × Json)) (s : SchemaNode) (p : String)
    (hr : strTruthy s.ref = false) (ho : s.oneOf = none) (ha : s.anyOf = none)
    (hty : s.typeField = some (.single "object")) :
    validateValue rt (.obj fields) s p =
      enumErrs s (.obj fields) p ++ patternErrs rt s (.obj fields) p ++
      rangeErrs s (.obj fields) p ++ lengthErrs s (.obj fields) p ++
      (requiredErrs s fields p ++
        (match s.properties with
         | some props => validateProps rt fields props p
         | none => [])) := by
  simp only [validateValue, hr, Bool.false_eq_true, if_false]
  split
  case _ subs heq =>
    rw [ho] at heq
    cases heq
  case _ =>
  split
  case _ subs heq =>
    rw [ha] at heq
    cases heq
  case _ =>
  rw [hty]
  simp [getValueType, typeTruthy, declaredTypes, typeList, asObjFields]
  split
  case _ props heq =>
    rw [heq]
  case _ heq =>
    rw [heq]

theorem lookup_some_key_mem {fields : List (String × Json)} {k : String} {v : Json}
    (h : fields.lookup k = some v) : (keysOf fields).contains k = true := by
  induction fields with
  | nil => simp [List.lookup] at h
  | cons kv rest ih =>
    rcases kv with ⟨k', v'⟩
    rw [List.lookup] at h
    by_cases hk : k = k'
    · subst hk
      simp [keysOf]
    · rw [show (k == k') = false from by simpa using hk] at h
      have := ih h
      simp [keysOf] at this ⊢
      exact Or.inr this

theorem childPath_prefix_cancel {p a b : String} {c : Char}
    (h : (childPath p a).data ++ [c] <+: (childPath p b).data) :
    a.data ++ [c] <+: b.data := by
  by_cases hp : p = ""
  · simpa [childPath, hp] using h
  · rw [data_childPath _ _ hp, data_childPath _ _ hp, List.append_assoc] at h
    exact (List.prefix_append_right_inj _).mp h

theorem requiredErrs_count {s : SchemaNode} {fields : List (String × Json)}
    {p fi : String} {req : List String}
    (hreq : s.required = some req)
    (hmiss : (keysOf fields).contains fi = false)
    (hcount : req.count fi = 1) :
    (requiredErrs s fields p).countP
      (fun e => (e.path == childPath p fi) && (e.message == "Required field missing")) = 1 := by
  unfold requiredErrs
  rw [hreq, List.countP_map]
  rw [List.countP_congr (q := fun f => f == fi) ?_]
  · show List.count fi _ = 1
    rw [List.count_filter (by simpa using hmiss)]
    exact hcount
  · intro f _
    constructor
    · intro h
      simp at h
      simp [childPath_inj h]
    · intro h
      simp at h
      subst h
      simp

theorem props_no_RFM (rt : String → String → Bool) (fields : List (String × Json))
    (p fi : String)
    (hdot : '.' ∉ fi.data) (hbr : '[' ∉ fi.data)
    (hmiss : (keysOf fields).contains fi = false) :
    ∀ props : List (String × SchemaNode), (∀ kp ∈ props, Prod.fst kp ≠ "") →
      ∀ e ∈ validateProps rt fields props p,
        ((e.path == childPath p fi) && (e.message == "Required field missing")) = false := by
  intro props
  induction props with
  | nil =>
    intro _ e he
    simp [validateProps] at he
  | cons kp rest ih =>
    rcases kp with ⟨key, ps⟩
    intro hk e he
    rw [validateProps, List.mem_append] at he
    by_contra hpred
    rw [Bool.not_eq_false, Bool.and_eq_true, beq_iff_eq, beq_iff_eq] at hpred
    rcases hpred with ⟨hpath, hmsg⟩
    rcases he with he | he
    · split at he
      case _ v hv =>
        have hkey_ne : key ≠ fi := by
          intro hkf
          subst hkf
          rw [lookup_some_key_mem hv] at hmiss
          cases hmiss
        have hcne : childPath p key ≠ "" :=
          childPath_ne_empty p key (fun _ => hk (key, ps) (List.mem_cons_self _ _))
        rcases validateValue_pathOk rt v ps (childPath p key) hcne e he with ⟨h1, h2⟩ | h1 | h1
        · exact h2 hmsg
        · rw [hpath] at h1
          have h3 := childPath_prefix_cancel h1
          exact hdot (h3.sublist.mem (by simp))
        · rw [hpath] at h1
          have h3 := childPath_prefix_cancel h1
          exact hbr (h3.sublist.mem (by simp))
      case _ => simp at he
    · have := ih (fun kp2 hm => hk kp2 (List.mem_cons_of_mem _ hm)) e he
      rw [hpath, hmsg] at this
      simp at this

theorem validateValue_required_count (rt : String → String → Bool)
    (fields : List (String × Json)) (s : SchemaNode) (p fi : String) (req : List String)
    (hr : strTruthy s.ref = false) (ho : s.oneOf = none) (ha : s.anyOf = none)
    (hty : s.typeField = some (.single "object"))
    (hreq : s.required = some req) (hcount : req.count fi = 1)
    (hmiss : (keysOf fields).contains fi = false)
    (hdot : '.' ∉ fi.data) (hbr : '[' ∉ fi.data)
    (hkeys : ∀ props, s.properties = some props → ∀ kp ∈ props, Prod.fst kp ≠ "") :
    (validateValue rt (.obj fields) s p).countP
      (fun e => (e.path == childPath p fi) && (e.message == "Required field missing")) = 1 := by
  rw [validateValue_obj_plain rt fields s p hr ho ha hty]
  repeat rw [List.countP_append]
  have hz : ∀ (l : List VErr),
      (∀ e ∈ l, e.message.data.head? = some 'V' ∨ e.message.data.head? = some 'S') →
      l.countP (fun e => (e.path == childPath p fi) && (e.message == "Required field missing")) = 0 := by
    intro l hl
    rw [List.countP_eq_zero]
    intro e he hpred
    rw [Bool.and_eq_true, beq_iff_eq, beq_iff_eq] at hpred
    rcases hl e he with h | h <;> (rw [hpred.2] at h; exact absurd h (by decide))
  rw [hz (enumErrs s (Json.obj fields) p) (fun e he => Or.inl (enumErrs_head he).2),
      hz (patternErrs rt s (Json.obj fields) p) (fun e he => Or.inl (patternErrs_head he).2),
      hz (rangeErrs s (Json.obj fields) p) (fun e he => Or.inl (rangeErrs_head he).2),
      hz (lengthErrs s (Json.obj fields) p) (fun e he => Or.inr (lengthErrs_head he).2),
      requiredErrs_count hreq hmiss hcount]
  have hp : List.countP
      (fun e => (e.path == childPath p fi) && (e.message == "Required field missing"))
      (match s.properties with
       | some props => validateProps rt fields props p
       | none => ([] : List VErr)) = 0 := by
    split
    case _ props hpr =>
      rw [List.countP_eq_zero]
      intro e he
      have h0 := props_no_RFM rt fields p fi hdot hbr hmiss props (hkeys props hpr) e he
      simp [h0]
    case _ => simp
  rw [hp]

/-- Uniqueness of keys of a properties map (JavaScript object keys are
unique; the association-list model makes this a side condition). -/
def nodupKeys : List String → Bool
  | [] => true
  | k :: rest => !rest.contains k && nodupKeys rest

/-- For an "integer"-typed node, the template value `minimum ?? 0` is
classified back as "integer" iff a declared minimum is integral. -/
def intMinOk : Option Rat → Bool
  | none => true
  | some q => q.den == 1

mutual

/-- Schema class under which the generated template re-validates without
type-mismatch or required-field errors (claim C7, amended): no `$ref`,
`oneOf`, `anyOf`, `default` or `enum` anywhere; every node's type is a single
one of "string", "integer", "boolean", "array" or "object" (the type
"number" is excluded: its template value 0 — or an integral `minimum` — is
classified "integer" by `getValueType` and would be a type mismatch); an
"integer" node's `minimum`, if declared, is integral; and an "object" node
has required fields drawn from its declared properties, nonduplicated
property keys, and recursively conforming property schemas. -/
def templateOk (ps : SchemaNode) : Bool :=
  ps.ref.isNone && ps.oneOf.isNone && ps.anyOf.isNone &&
  ps.default.isNone && ps.enum.isNone &&
  match ps.typeField with
  | some (.single "string") => true
  | some (.single "integer") => intMinOk ps.minimum
  | some (.single "boolean") => true
  | some (.single "array") => true
  | some (.single "object") =>
    (match h2 : ps.properties with
     | none => (ps.required.getD []).isEmpty
     | some props =>
       (ps.required.getD []).all (fun f => (props.map Prod.fst).contains f) &&
       nodupKeys (props.map Prod.fst) && templateOkProps props)
  | _ => false
termination_by (sizeOf ps, 0)
decreasing_by
  exact Prod.Lex.left _ _ (sizeOf_lt_of_properties h2)

/-- Conjunction of `templateOk` over a properties map. -/
def templateOkProps (props : List (String × SchemaNode)) : Bool :=
  match props with
  | [] => true
  | (_, ps) :: rest => templateOk ps && templateOkProps rest
termination_by (sizeOf props, 0)
decreasing_by
  all_goals
    apply Prod.Lex.left
    simp
    try omega

end

/-- Root-level restriction for claim C7 (amended): the root must itself be
"object"- or "array"-typed (any other root generates `{}`, which would
type-mismatch), and satisfy `templateOk`. -/
def rootTemplateOk (s : SchemaNode) : Bool :=
  ((s.typeField == some (.single "object")) || (s.typeField == some (.single "array"))) &&
  templateOk s

/-- Benign-message test for claim C7: not a type-mismatch error and not a
required-field error. -/
def benignMsg (e : VErr) : Bool :=
  !("Expected type ".data.isPrefixOf e.message.data) && (e.message != "Required field missing")

theorem benign_of_head {e : VErr}
    (h : e.message.data.head? = some 'V' ∨ e.message.data.head? = some 'S') :
    benignMsg e = true := by
  unfold benignMsg
  have h1 : ("Expected type ".data.isPrefixOf e.message.data) = false := by
    rcases hdata : e.message.data with _ | ⟨c, tail⟩ <;> rw [hdata] at h
    · rcases h with h | h <;> cases h
    · rcases h with h | h <;> (injection h with hc; subst hc; simp [List.isPrefixOf])
  have h2 : (e.message != "Required field missing") = true := by
    rw [bne_iff_ne]
    apply ne_of_head_ne
    rcases h with h | h <;> rw [h] <;> decide
  rw [h1, h2]
  rfl

theorem keysOf_templateProps (props : List (String × SchemaNode)) :
    keysOf (templateProps props) = props.map Prod.fst := by
  induction props with
  | nil => simp [templateProps, keysOf]
  | cons kp rest ih =>
    rcases kp with ⟨k, ps⟩
    rw [templateProps]
    simp [keysOf] at ih ⊢
    exact ih

theorem requiredErrs_of_all {s : SchemaNode} {fields : List (String × Json)} (p : String)
    (h : (s.required.getD []).all (fun f => (keysOf fields).contains f) = true) :
    requiredErrs s fields p = [] := by
  unfold requiredErrs
  split
  case _ => rfl
  case _ req hreq =>
    rw [hreq] at h
    have hf : req.filter (fun f => !(keysOf fields).contains f) = [] := by
      rw [List.filter_eq_nil_iff]
      intro f hfm
      have := (List.all_eq_true.mp h) f hfm
      simp_all
    rw [hf]
    rfl

theorem sizeOf_snd_lt_of_mem {props : List (String × SchemaNode)} {k : String} {ps : SchemaNode}
    (h : (k, ps) ∈ props) : sizeOf ps < sizeOf props := by
  have h1 := List.sizeOf_lt_of_mem h
  have h2 : sizeOf (k, ps) = 1 + sizeOf k + sizeOf ps := rfl
  omega

theorem templateProps_lookup {props : List (String × SchemaNode)}
    (hnodup : nodupKeys (props.map Prod.fst) = true) :
    ∀ k ps, (k, ps) ∈ props → (templateProps props).lookup k = some (templateValue ps) := by
  induction props with
  | nil =>
    intro k ps h
    cases h
  | cons kp rest ih =>
    rcases kp with ⟨k0, ps0⟩
    intro k ps h
    rw [templateProps, List.lookup]
    rcases List.mem_cons.mp h with hmem | hmem
    · injection hmem with h1 h2
      subst h1
      subst h2
      simp
    · have hn := hnodup
      simp [nodupKeys] at hn
      have hkne : (k == k0) = false := by
        simp only [beq_eq_false_iff_ne, ne_eq]
        intro hkk
        subst hkk
        exact hn.1 ps hmem
      rw [hkne]
      exact ih hn.2 k ps hmem

theorem validateProps_benign (n : Nat)
    (ihn : ∀ ps, sizeOf ps ≤ n → templateOk ps = true →
      ∀ (rt : String → String → Bool) (p : String),
        ∀ e ∈ validateValue rt (templateValue ps) ps p, benignMsg e = true)
    (fields : List (String × Json)) (rt : String → String → Bool) (p : String) :
    ∀ props, templateOkProps props = true →
      (∀ k psc, (k, psc) ∈ props → fields.lookup k = some (templateValue psc)) →
      (∀ k psc, (k, psc) ∈ props → sizeOf psc ≤ n) →
      ∀ e ∈ validateProps rt fields props p, benignMsg e = true := by
  intro props
  induction props with
  | nil =>
    intro _ _ _ e he
    simp [validateProps] at he
  | cons kp rest ih =>
    rcases kp with ⟨key, psc⟩
    intro hok hlook hsz e he
    rw [validateProps, List.mem_append] at he
    rw [templateOkProps, Bool.and_eq_true] at hok
    rcases he with he | he
    · rw [hlook key psc (List.mem_cons_self _ _)] at he
      exact ihn psc (hsz key psc (List.mem_cons_self _ _)) hok.1 rt (childPath p key) e he
    · exact ih hok.2 (fun k c hm => hlook k c (List.mem_cons_of_mem _ hm))
        (fun k c hm => hsz k c (List.mem_cons_of_mem _ hm)) e he

theorem generateFromSchema_obj {ps : SchemaNode} (heq : ps.typeField = some (.single "object")) :
    generateFromSchema ps =
      Json.obj (match ps.properties with
                | some props => templateProps props
                | none => []) := by
  simp only [generateFromSchema, heq]
  simp only [show (some (TypeField.single "object") = some (TypeField.single "array")) = False by simp,
    if_false, if_pos rfl, ite_true, ite_false]
  split
  case _ props hp => rw [hp]
  case _ hp => rw [hp]

theorem template_benign_aux :
    ∀ (n : Nat) (ps : SchemaNode), sizeOf ps ≤ n → templateOk ps = true →
      ∀ (rt : String → String → Bool) (p : String),
        ∀ e ∈ validateValue rt (templateValue ps) ps p, benignMsg e = true := by
  intro n
  induction n with
  | zero =>
    intro ps hsz
    exfalso
    cases ps
    simp at hsz
  | succ n ihn =>
    intro ps hsz hok rt p e he
    have hok' := hok
    unfold templateOk at hok'
    simp only [Bool.and_eq_true] at hok'
    obtain ⟨⟨⟨⟨⟨href, hone⟩, hany⟩, hdef⟩, henum⟩, hmatch⟩ := hok'
    rw [Option.isNone_iff_eq_none] at href hone hany hdef henum
    have hrefF : strTruthy ps.ref = false := by rw [href]; rfl
    split at hmatch
    case _ heq =>
      -- type "string"
      have hval : templateValue ps = Json.str "" := by
        simp [templateValue, hdef, henum, heq]
      rw [hval] at he
      simp only [validateValue, hrefF, Bool.false_eq_true, if_false] at he
      split at he
      case _ subs hq => rw [hone] at hq; cases hq
      case _ =>
      split at he
      case _ subs hq => rw [hany] at hq; cases hq
      case _ =>
      split at he
      case _ hcond =>
        exfalso
        rw [heq] at hcond
        simp [typeTruthy, declaredTypes, typeList, getValueType] at hcond
      case _ =>
      simp only [List.mem_append] at he
      rcases he with ((((he | he) | he) | he) | he) | he
      · exact benign_of_head (Or.inl (enumErrs_head he).2)
      · exact benign_of_head (Or.inl (patternErrs_head he).2)
      · exact benign_of_head (Or.inl (rangeErrs_head he).2)
      · exact benign_of_head (Or.inr (lengthErrs_head he).2)
      · split at he
        case _ hobj => rw [heq] at hobj; simp at hobj
        case _ => simp at he
      · split at he
        case _ harr => rw [heq] at harr; simp at harr
        case _ => simp at he
    case _ heq =>
      -- type "integer"
      have hden : (ps.minimum.getD 0).den = 1 := by
        rcases hm : ps.minimum with _ | q
        · simp [Rat.den_ofNat]
        · rw [hm] at hmatch
          simp [intMinOk] at hmatch
          simpa using hmatch
      have hval : templateValue ps = Json.num (ps.minimum.getD 0) := by
        simp [templateValue, hdef, henum, heq]
      rw [hval] at he
      simp only [validateValue, hrefF, Bool.false_eq_true, if_false] at he
      split at he
      case _ subs hq => rw [hone] at hq; cases hq
      case _ =>
      split at he
      case _ subs hq => rw [hany] at hq; cases hq
      case _ =>
      split at he
      case _ hcond =>
        exfalso
        rw [heq] at hcond
        simp [typeTruthy, declaredTypes, typeList, getValueType, hden] at hcond
      case _ =>
      simp only [List.mem_append] at he
      rcases he with ((((he | he) | he) | he) | he) | he
      · exact benign_of_head (Or.inl (enumErrs_head he).2)
      · exact benign_of_head (Or.inl (patternErrs_head he).2)
      · exact benign_of_head (Or.inl (rangeErrs_head he).2)
      · exact benign_of_head (Or.inr (lengthErrs_head he).2)
      · split at he
        case _ hobj => rw [heq] at hobj; simp at hobj
        case _ => simp at he
      · split at he
        case _ harr => rw [heq] at harr; simp at harr
        case _ => simp at he
    case _ heq =>
      -- type "boolean"
      have hval : templateValue ps = Json.bool false := by
        simp [templateValue, hdef, henum, heq]
      rw [hval] at he
      simp only [validateValue, hrefF, Bool.false_eq_true, if_false] at he
      split at he
      case _ subs hq => rw [hone] at hq; cases hq
      case _ =>
      split at he
      case _ subs hq => rw [hany] at hq; cases hq
      case _ =>
      split at he
      case _ hcond =>
        exfalso
        rw [heq] at hcond
        simp [typeTruthy, declaredTypes, typeList, getValueType] at hcond
      case _ =>
      simp only [List.mem_append] at he
      rcases he with ((((he | he) | he) | he) | he) | he
      · exact benign_of_head (Or.inl (enumErrs_head he).2)
      · exact benign_of_head (Or.inl (patternErrs_head he).2)
      · exact benign_of_head (Or.inl (rangeErrs_head he).2)
      · exact benign_of_head (Or.inr (lengthErrs_head he).2)
      · split at he
        case _ hobj => rw [heq] at hobj; simp at hobj
        case _ => simp at he
      · split at he
        case _ harr => rw [heq] at harr; simp at harr
        case _ => simp at he
    case _ heq =>
      -- type "array"
      have hval : templateValue ps = Json.arr [] := by
        simp [templateValue, hdef, henum, heq]
      rw [hval] at he
      simp only [validateValue, hrefF, Bool.false_eq_true, if_false] at he
      split at he
      case _ subs hq => rw [hone] at hq; cases hq
      case _ =>
      split at he
      case _ subs hq => rw [hany] at hq; cases hq
      case _ =>
      split at he
      case _ hcond =>
        exfalso
        rw [heq] at hcond
        simp [typeTruthy, declaredTypes, typeList, getValueType] at hcond
      case _ =>
      simp only [List.mem_append] at he
      rcases he with ((((he | he) | he) | he) | he) | he
      · exact benign_of_head (Or.inl (enumErrs_head he).2)
      · exact benign_of_head (Or.inl (patternErrs_head he).2)
      · exact benign_of_head (Or.inl (rangeErrs_head he).2)
      · exact benign_of_head (Or.inr (lengthErrs_head he).2)
      · split at he
        case _ hobj => rw [heq] at hobj; simp at hobj
        case _ => simp at he
      · split at he
        case _ harr =>
          simp only [asArrElems, Option.some.injEq] at harr
          subst harr
          split at he
          case _ it hit =>
            simp [validateItems] at he
          case _ => simp at he
        case _ harr => simp [asArrElems] at harr
    case _ heq =>
      -- type "object"
      have hval : templateValue ps = generateFromSchema ps := by
        simp [templateValue, hdef, henum, heq]
      rw [hval, generateFromSchema_obj heq] at he
      split at hmatch
      case _ hp2 =>
        -- no properties
        rw [hp2] at he
        have hre : (ps.required.getD []).all
            (fun f => (keysOf ([] : List (String × Json))).contains f) = true := by
          rw [List.isEmpty_iff.mp hmatch]
          rfl
        simp only [validateValue, hrefF, Bool.false_eq_true, if_false] at he
        split at he
        case _ subs hq => rw [hone] at hq; cases hq
        case _ =>
        split at he
        case _ subs hq => rw [hany] at hq; cases hq
        case _ =>
        split at he
        case _ hcond =>
          exfalso
          rw [heq] at hcond
          simp [typeTruthy, declaredTypes, typeList, getValueType] at hcond
        case _ =>
        simp only [List.mem_append] at he
        rcases he with ((((he | he) | he) | he) | he) | he
        · exact benign_of_head (Or.inl (enumErrs_head he).2)
        · exact benign_of_head (Or.inl (patternErrs_head he).2)
        · exact benign_of_head (Or.inl (rangeErrs_head he).2)
        · exact benign_of_head (Or.inr (lengthErrs_head he).2)
        · split at he
          case _ hobj =>
            simp only [asObjFields, Option.some.injEq] at hobj
            subst hobj
            rw [requiredErrs_of_all p hre, hp2] at he
            simp at he
          case _ => simp at he
        · split at he
          case _ harr => rw [heq] at harr; simp at harr
          case _ => simp at he
      case _ props hp2 =>
        simp only [Bool.and_eq_true] at hmatch
        obtain ⟨⟨hall, hnodup⟩, htprops⟩ := hmatch
        rw [hp2] at he
        have hre : requiredErrs ps (templateProps props) p = [] := by
          apply requiredErrs_of_all
          rw [keysOf_templateProps]
          exact hall
        simp only [validateValue, hrefF, Bool.false_eq_true, if_false] at he
        split at he
        case _ subs hq => rw [hone] at hq; cases hq
        case _ =>
        split at he
        case _ subs hq => rw [hany] at hq; cases hq
        case _ =>
        split at he
        case _ hcond =>
          exfalso
          rw [heq] at hcond
          simp [typeTruthy, declaredTypes, typeList, getValueType] at hcond
        case _ =>
        simp only [List.mem_append] at he
        rcases he with ((((he | he) | he) | he) | he) | he
        · exact benign_of_head (Or.inl (enumErrs_head he).2)
        · exact benign_of_head (Or.inl (patternErrs_head he).2)
        · exact benign_of_head (Or.inl (rangeErrs_head he).2)
        · exact benign_of_head (Or.inr (lengthErrs_head he).2)
        · split at he
          case _ hobj =>
            simp only [asObjFields, Option.some.injEq] at hobj
            subst hobj
            rw [hre, hp2] at he
            simp only [List.nil_append] at he
            refine validateProps_benign n ihn (templateProps props) rt p props htprops
              (templateProps_lookup hnodup) ?_ e he
            intro k psc hm
            have h1 := sizeOf_snd_lt_of_mem hm
            have h2 := sizeOf_lt_of_properties hp2
            omega
          case _ => simp at he
        · split at he
          case _ harr => rw [heq] at harr; simp at harr
          case _ => simp at he
    case _ =>
      cases hmatch

theorem validateValue_type_mismatch (rt : String → String → Bool) (v : Json) (s : SchemaNode) (p : String)
    (hr : strTruthy s.ref = false) (ho : s.oneOf = none) (ha : s.anyOf = none)
    (ht : typeTruthy s.typeField = true)
    (hm : (declaredTypes s.typeField).contains (getValueType v) = false) :
    validateValue rt v s p =
      [⟨p, "Expected type " ++ String.intercalate " | " (declaredTypes s.typeField) ++ ", got " ++ getValueType v, some v⟩] := by
  simp only [validateValue, hr, Bool.false_eq_true, if_false]
  split
  case _ subs hq => rw [ho] at hq; cases hq
  case _ =>
  split
  case _ subs hq => rw [ha] at hq; cases hq
  case _ =>
  rw [if_pos (by rw [ht, hm]; rfl)]

/-- Schema node with the structural fields (`required`, `properties`,
`items`) cleared, used to state that a list-form `type` disables all
structural checks (claim C9). -/
def clearStructural (s : SchemaNode) : SchemaNode :=
  ((s.withRequired none).withProperties none).withItems none

theorem listType_ignores_structural (rt : String → String → Bool) (v : Json) (s : SchemaNode)
    (p : String) (ts : List String) (hty : s.typeField = some (.many ts)) :
    validateValue rt v s p = validateValue rt v (clearStructural s) p := by
  cases s with
  | mk t d pr it rq en pa mi ma mil mal df oo ao alo rf ti dfs =>
    simp only [SchemaNode.typeField] at hty
    subst hty
    simp [validateValue, clearStructural, SchemaNode.withRequired, SchemaNode.withProperties,
      SchemaNode.withItems, SchemaNode.ref, SchemaNode.oneOf, SchemaNode.anyOf,
      SchemaNode.typeField, SchemaNode.enum, SchemaNode.pattern, SchemaNode.minimum,
      SchemaNode.maximum, SchemaNode.minLength, SchemaNode.maxLength, enumErrs, patternErrs,
      rangeErrs, lengthErrs]

theorem oneOfMatchCount_eq_countP (rt : String → String → Bool) (v : Json)
    (subs : List SchemaNode) (p : String) :
    oneOfMatchCount rt v subs p =
      subs.countP (fun sub => (validateValue rt v sub p).isEmpty) := by
  induction subs with
  | nil => simp [oneOfMatchCount]
  | cons a rest ih =>
    rw [oneOfMatchCount, List.countP_cons, ih]
    by_cases h : (validateValue rt v a p).isEmpty <;> simp [h] <;> omega

/-- Schema `{type:"string"}`. -/
def schemaString : SchemaNode := emptySchema.withTypeField (some (.single "string"))

/-- Schema `{type:"object", properties:{name:{type:"string"}}, required:["name"]}`
(concrete scenario of claims C4 and C7). -/
def schemaRequiredName : SchemaNode :=
  ((emptySchema.withTypeField (some (.single "object"))).withProperties
    (some [("name", schemaString)])).withRequired (some ["name"])

/-- Schema `{$ref:"#/definitions/x", oneOf:[{type:"string"}]}` (counterexample
to claim C1 as stated: the `$ref` short-circuit precedes `oneOf`). -/
def schemaRefOneOf : SchemaNode :=
  (emptySchema.withOneOf (some [schemaString])).withRef (some "#/definitions/x")

/-- Schema `{$ref:"#/definitions/x", type:"number"}` (counterexample to claim
C2 as stated). -/
def schemaRefNumber : SchemaNode :=
  (emptySchema.withTypeField (some (.single "number"))).withRef (some "#/definitions/x")

/-- Schema `{type:"number", oneOf:[{type:"integer"}]}` (counterexample to the
consequence part of claim C3 as stated). -/
def schemaNumberOneOfInt : SchemaNode :=
  (emptySchema.withTypeField (some (.single "number"))).withOneOf
    (some [emptySchema.withTypeField (some (.single "integer"))])

/-- Schema `{type:"object", required:["a","a"]}` (counterexample to the
"exactly one error per missing field" part of claim C4 as stated). -/
def schemaDupRequired : SchemaNode :=
  (emptySchema.withTypeField (some (.single "object"))).withRequired (some ["a", "a"])

/-- Schema of concrete scenario 3 (claim C6):
`{type:"object", properties:{role:{type:"string", enum:["admin","user"]},
age:{type:"integer", minimum:18}}}`. -/
def schemaRoleAge : SchemaNode :=
  (emptySchema.withTypeField (some (.single "object"))).withProperties
    (some [("role", schemaString.withEnum (some [.s "admin", .s "user"])),
           ("age", (emptySchema.withTypeField (some (.single "integer"))).withMinimum (some 18))])

/-- Schema `{type:["object"], required:["a"]}` (claim C9). -/
def schemaListObjectRequired : SchemaNode :=
  (emptySchema.withTypeField (some (.many ["object"]))).withRequired (some ["a"])

/-- Schema `{type:"object", required:["a"]}` (claim C9). -/
def schemaObjectRequiredA : SchemaNode :=
  (emptySchema.withTypeField (some (.single "object"))).withRequired (some ["a"])

/-- Depth-2 nested schema (failing input of claim C8): title "A" with object
property `b` whose object property `c` has a string property `d`. -/
def schemaDepth2 : SchemaNode :=
  ((emptySchema.withTitle (some "A")).withTypeField (some (.single "object"))).withProperties
    (some [("b", (emptySchema.withTypeField (some (.single "object"))).withProperties
      (some [("c", (emptySchema.withTypeField (some (.single "object"))).withProperties
        (some [("d", schemaString)]))]))])

/-- Object-typed property schema with its own properties (claim C10). -/
def schemaNestedSettings : SchemaNode :=
  (emptySchema.withTypeField (some (.single "object"))).withProperties
    (some [("x", schemaString)])

/-- Class schema with one object-typed property (claim C10). -/
def schemaClassC10 : SchemaNode :=
  ((emptySchema.withTitle (some "User")).withTypeField (some (.single "object"))).withProperties
    (some [("settings", schemaNestedSettings)])

/-- C5: for every document value and every schema tree (with `pattern`
matching abstracted by the total matcher `rt`, corresponding to valid
regular expressions), `validate` is a total function — it terminates without
raising, every failure being an entry of the returned error list — and the
result has `valid = true` iff its `errors` sequence is empty. -/
theorem validate_total_and_valid_iff_no_errors (rt : String → String → Bool)
    (d : Json) (s : SchemaNode) :
    ((validate rt d s).valid = true ↔ (validate rt d s).errors = []) ∧
    (validate rt d s).errors = validateValue rt d s "" := by
  constructor
  · show (validateValue rt d s "").isEmpty = true ↔ _
    rw [List.isEmpty_iff]
    exact Iff.rfl
  · rfl

/-- C2 (amended): on a schema node without a truthy `$ref` and without
`oneOf`/`anyOf` — the short-circuits that precede the type check — that
declares a truthy `type`, a value whose computed runtime type is not among
the declared set yields exactly the single error "Expected type {declared},
got {actual}" and no constraint-specific errors for that node. -/
theorem type_mismatch_yields_single_error (rt : String → String → Bool)
    (v : Json) (s : SchemaNode) (p : String)
    (hr : strTruthy s.ref = false) (ho : s.oneOf = none) (ha : s.anyOf = none)
    (ht : typeTruthy s.typeField = true)
    (hm : (declaredTypes s.typeField).contains (getValueType v) = false) :
    validateValue rt v s p =
      [⟨p, "Expected type " ++ String.intercalate " | " (declaredTypes s.typeField) ++
        ", got " ++ getValueType v, some v⟩] :=
  validateValue_type_mismatch rt v s p hr ho ha ht hm

/-- Witness for C2: the integer 5 against `{type:"string"}`. -/
theorem type_mismatch_yields_single_error_witness :
    strTruthy schemaString.ref = false ∧ schemaString.oneOf = none ∧
    schemaString.anyOf = none ∧ typeTruthy schemaString.typeField = true ∧
    (declaredTypes schemaString.typeField).contains (getValueType (Json.num 5)) = false ∧
    validateValue rtTrue (Json.num 5) schemaString "" =
      [⟨"", "Expected type " ++ String.intercalate " | " (declaredTypes schemaString.typeField) ++
        ", got " ++ getValueType (Json.num 5), some (Json.num 5)⟩] :=
  ⟨by simp [validate, validateValue, validateProps, validateItems, oneOfMatchCount, anyOfMatch,
    enumErrs, patternErrs, rangeErrs, lengthErrs, requiredErrs, keysOf, asObjFields, asArrElems,
    childPath, strTruthy, typeTruthy, declaredTypes, typeList, getValueType, primEqJson,
    primToString, jsNumToString, emptySchema, rtTrue,
    SchemaNode.withTypeField, SchemaNode.withDescr, SchemaNode.withProperties,
    SchemaNode.withItems, SchemaNode.withRequired, SchemaNode.withEnum, SchemaNode.withPattern,
    SchemaNode.withMinimum, SchemaNode.withMaximum, SchemaNode.withMinLength,
    SchemaNode.withMaxLength, SchemaNode.withDefault, SchemaNode.withOneOf, SchemaNode.withAnyOf,
    SchemaNode.withAllOf, SchemaNode.withRef, SchemaNode.withTitle, SchemaNode.withDefinitions,
    SchemaNode.typeField, SchemaNode.descr, SchemaNode.properties, SchemaNode.items,
    SchemaNode.required, SchemaNode.enum, SchemaNode.pattern, SchemaNode.minimum,
    SchemaNode.maximum, SchemaNode.minLength, SchemaNode.maxLength, SchemaNode.default,
    SchemaNode.oneOf, SchemaNode.anyOf, SchemaNode.allOf, SchemaNode.ref, SchemaNode.title,
    SchemaNode.definitions, schemaString],
   by simp [validate, validateValue, validateProps, validateItems, oneOfMatchCount, anyOfMatch,
    enumErrs, patternErrs, rangeErrs, lengthErrs, requiredErrs, keysOf, asObjFields, asArrElems,
    childPath, strTruthy, typeTruthy, declaredTypes, typeList, getValueType, primEqJson,
    primToString, jsNumToString, emptySchema, rtTrue,
    SchemaNode.withTypeField, SchemaNode.withDescr, SchemaNode.withProperties,
    SchemaNode.withItems, SchemaNode.withRequired, SchemaNode.withEnum, SchemaNode.withPattern,
    SchemaNode.withMinimum, SchemaNode.withMaximum, SchemaNode.withMinLength,
    SchemaNode.withMaxLength, SchemaNode.withDefault, SchemaNode.withOneOf, SchemaNode.withAnyOf,
    SchemaNode.withAllOf, SchemaNode.withRef, SchemaNode.withTitle, SchemaNode.withDefinitions,
    SchemaNode.typeField, SchemaNode.descr, SchemaNode.properties, SchemaNode.items,
    SchemaNode.required, SchemaNode.enum, SchemaNode.pattern, SchemaNode.minimum,
    SchemaNode.maximum, SchemaNode.minLength, SchemaNode.maxLength, SchemaNode.default,
    SchemaNode.oneOf, SchemaNode.anyOf, SchemaNode.allOf, SchemaNode.ref, SchemaNode.title,
    SchemaNode.definitions, schemaString],
   by simp [validate, validateValue, validateProps, validateItems, oneOfMatchCount, anyOfMatch,
    enumErrs, patternErrs, rangeErrs, lengthErrs, requiredErrs, keysOf, asObjFields, asArrElems,
    childPath, strTruthy, typeTruthy, declaredTypes, typeList, getValueType, primEqJson,
    primToString, jsNumToString, emptySchema, rtTrue,
    SchemaNode.withTypeField, SchemaNode.withDescr, SchemaNode.withProperties,
    SchemaNode.withItems, SchemaNode.withRequired, SchemaNode.withEnum, SchemaNode.withPattern,
    SchemaNode.withMinimum, SchemaNode.withMaximum, SchemaNode.withMinLength,
    SchemaNode.withMaxLength, SchemaNode.withDefault, SchemaNode.withOneOf, SchemaNode.withAnyOf,
    SchemaNode.withAllOf, SchemaNode.withRef, SchemaNode.withTitle, SchemaNode.withDefinitions,
    SchemaNode.typeField, SchemaNode.descr, SchemaNode.properties, SchemaNode.items,
    SchemaNode.required, SchemaNode.enum, SchemaNode.pattern, SchemaNode.minimum,
    SchemaNode.maximum, SchemaNode.minLength, SchemaNode.maxLength, SchemaNode.default,
    SchemaNode.oneOf, SchemaNode.anyOf, SchemaNode.allOf, SchemaNode.ref, SchemaNode.title,
    SchemaNode.definitions, schemaString],
   by simp [validate, validateValue, validateProps, validateItems, oneOfMatchCount, anyOfMatch,
    enumErrs, patternErrs, rangeErrs, lengthErrs, requiredErrs, keysOf, asObjFields, asArrElems,
    childPath, strTruthy, typeTruthy, declaredTypes, typeList, getValueType, primEqJson,
    primToString, jsNumToString, emptySchema, rtTrue,
    SchemaNode.withTypeField, SchemaNode.withDescr, SchemaNode.withProperties,
    SchemaNode.withItems, SchemaNode.withRequired, SchemaNode.withEnum, SchemaNode.withPattern,
    SchemaNode.withMinimum, SchemaNode.withMaximum, SchemaNode.withMinLength,
    SchemaNode.withMaxLength, SchemaNode.withDefault, SchemaNode.withOneOf, SchemaNode.withAnyOf,
    SchemaNode.withAllOf, SchemaNode.withRef, SchemaNode.withTitle, SchemaNode.withDefinitions,
    SchemaNode.typeField, SchemaNode.descr, SchemaNode.properties, SchemaNode.items,
    SchemaNode.required, SchemaNode.enum, SchemaNode.pattern, SchemaNode.minimum,
    SchemaNode.maximum, SchemaNode.minLength, SchemaNode.maxLength, SchemaNode.default,
    SchemaNode.oneOf, SchemaNode.anyOf, SchemaNode.allOf, SchemaNode.ref, SchemaNode.title,
    SchemaNode.definitions, schemaString],
   by simp [validate, validateValue, validateProps, validateItems, oneOfMatchCount, anyOfMatch,
    enumErrs, patternErrs, rangeErrs, lengthErrs, requiredErrs, keysOf, asObjFields, asArrElems,
    childPath, strTruthy, typeTruthy, declaredTypes, typeList, getValueType, primEqJson,
    primToString, jsNumToString, emptySchema, rtTrue,
    SchemaNode.withTypeField, SchemaNode.withDescr, SchemaNode.withProperties,
    SchemaNode.withItems, SchemaNode.withRequired, SchemaNode.withEnum, SchemaNode.withPattern,
    SchemaNode.withMinimum, SchemaNode.withMaximum, SchemaNode.withMinLength,
    SchemaNode.withMaxLength, SchemaNode.withDefault, SchemaNode.withOneOf, SchemaNode.withAnyOf,
    SchemaNode.withAllOf, SchemaNode.withRef, SchemaNode.withTitle, SchemaNode.withDefinitions,
    SchemaNode.typeField, SchemaNode.descr, SchemaNode.properties, SchemaNode.items,
    SchemaNode.required, SchemaNode.enum, SchemaNode.pattern, SchemaNode.minimum,
    SchemaNode.maximum, SchemaNode.minLength, SchemaNode.maxLength, SchemaNode.default,
    SchemaNode.oneOf, SchemaNode.anyOf, SchemaNode.allOf, SchemaNode.ref, SchemaNode.title,
    SchemaNode.definitions, schemaString],
   type_mismatch_yields_single_error rtTrue (Json.num 5) schemaString ""
     (by simp [validate, validateValue, validateProps, validateItems, oneOfMatchCount, anyOfMatch,
    enumErrs, patternErrs, rangeErrs, lengthErrs, requiredErrs, keysOf, asObjFields, asArrElems,
    childPath, strTruthy, typeTruthy, declaredTypes, typeList, getValueType, primEqJson,
    primToString, jsNumToString, emptySchema, rtTrue,
    SchemaNode.withTypeField, SchemaNode.withDescr, SchemaNode.withProperties,
    SchemaNode.withItems, SchemaNode.withRequired, SchemaNode.withEnum, SchemaNode.withPattern,
    SchemaNode.withMinimum, SchemaNode.withMaximum, SchemaNode.withMinLength,
    SchemaNode.withMaxLength, SchemaNode.withDefault, SchemaNode.withOneOf, SchemaNode.withAnyOf,
    SchemaNode.withAllOf, SchemaNode.withRef, SchemaNode.withTitle, SchemaNode.withDefinitions,
    SchemaNode.typeField, SchemaNode.descr, SchemaNode.properties, SchemaNode.items,
    SchemaNode.required, SchemaNode.enum, SchemaNode.pattern, SchemaNode.minimum,
    SchemaNode.maximum, SchemaNode.minLength, SchemaNode.maxLength, SchemaNode.default,
    SchemaNode.oneOf, SchemaNode.anyOf, SchemaNode.allOf, SchemaNode.ref, SchemaNode.title,
    SchemaNode.definitions, schemaString]) (by simp [validate, validateValue, validateProps, validateItems, oneOfMatchCount, anyOfMatch,
    enumErrs, patternErrs, rangeErrs, lengthErrs, requiredErrs, keysOf, asObjFields, asArrElems,
    childPath, strTruthy, typeTruthy, declaredTypes, typeList, getValueType, primEqJson,
    primToString, jsNumToString, emptySchema, rtTrue,
    SchemaNode.withTypeField, SchemaNode.withDescr, SchemaNode.withProperties,
    SchemaNode.withItems, SchemaNode.withRequired, SchemaNode.withEnum, SchemaNode.withPattern,
    SchemaNode.withMinimum, SchemaNode.withMaximum, SchemaNode.withMinLength,
    SchemaNode.withMaxLength, SchemaNode.withDefault, SchemaNode.withOneOf, SchemaNode.withAnyOf,
    SchemaNode.withAllOf, SchemaNode.withRef, SchemaNode.withTitle, SchemaNode.withDefinitions,
    SchemaNode.typeField, SchemaNode.descr, SchemaNode.properties, SchemaNode.items,
    SchemaNode.required, SchemaNode.enum, SchemaNode.pattern, SchemaNode.minimum,
    SchemaNode.maximum, SchemaNode.minLength, SchemaNode.maxLength, SchemaNode.default,
    SchemaNode.oneOf, SchemaNode.anyOf, SchemaNode.allOf, SchemaNode.ref, SchemaNode.title,
    SchemaNode.definitions, schemaString])
     (by simp [validate, validateValue, validateProps, validateItems, oneOfMatchCount, anyOfMatch,
    enumErrs, patternErrs, rangeErrs, lengthErrs, requiredErrs, keysOf, asObjFields, asArrElems,
    childPath, strTruthy, typeTruthy, declaredTypes, typeList, getValueType, primEqJson,
    primToString, jsNumToString, emptySchema, rtTrue,
    SchemaNode.withTypeField, SchemaNode.withDescr, SchemaNode.withProperties,
    SchemaNode.withItems, SchemaNode.withRequired, SchemaNode.withEnum, SchemaNode.withPattern,
    SchemaNode.withMinimum, SchemaNode.withMaximum, SchemaNode.withMinLength,
    SchemaNode.withMaxLength, SchemaNode.withDefault, SchemaNode.withOneOf, SchemaNode.withAnyOf,
    SchemaNode.withAllOf, SchemaNode.withRef, SchemaNode.withTitle, SchemaNode.withDefinitions,
    SchemaNode.typeField, SchemaNode.descr, SchemaNode.properties, SchemaNode.items,
    SchemaNode.required, SchemaNode.enum, SchemaNode.pattern, SchemaNode.minimum,
    SchemaNode.maximum, SchemaNode.minLength, SchemaNode.maxLength, SchemaNode.default,
    SchemaNode.oneOf, SchemaNode.anyOf, SchemaNode.allOf, SchemaNode.ref, SchemaNode.title,
    SchemaNode.definitions, schemaString]) (by simp [validate, validateValue, validateProps, validateItems, oneOfMatchCount, anyOfMatch,
    enumErrs, patternErrs, rangeErrs, lengthErrs, requiredErrs, keysOf, asObjFields, asArrElems,
    childPath, strTruthy, typeTruthy, declaredTypes, typeList, getValueType, primEqJson,
    primToString, jsNumToString, emptySchema, rtTrue,
    SchemaNode.withTypeField, SchemaNode.withDescr, SchemaNode.withProperties,
    SchemaNode.withItems, SchemaNode.withRequired, SchemaNode.withEnum, SchemaNode.withPattern,
    SchemaNode.withMinimum, SchemaNode.withMaximum, SchemaNode.withMinLength,
    SchemaNode.withMaxLength, SchemaNode.withDefault, SchemaNode.withOneOf, SchemaNode.withAnyOf,
    SchemaNode.withAllOf, SchemaNode.withRef, SchemaNode.withTitle, SchemaNode.withDefinitions,
    SchemaNode.typeField, SchemaNode.descr, SchemaNode.properties, SchemaNode.items,
    SchemaNode.required, SchemaNode.enum, SchemaNode.pattern, SchemaNode.minimum,
    SchemaNode.maximum, SchemaNode.minLength, SchemaNode.maxLength, SchemaNode.default,
    SchemaNode.oneOf, SchemaNode.anyOf, SchemaNode.allOf, SchemaNode.ref, SchemaNode.title,
    SchemaNode.definitions, schemaString])
     (by simp [validate, validateValue, validateProps, validateItems, oneOfMatchCount, anyOfMatch,
    enumErrs, patternErrs, rangeErrs, lengthErrs, requiredErrs, keysOf, asObjFields, asArrElems,
    childPath, strTruthy, typeTruthy, declaredTypes, typeList, getValueType, primEqJson,
    primToString, jsNumToString, emptySchema, rtTrue,
    SchemaNode.withTypeField, SchemaNode.withDescr, SchemaNode.withProperties,
    SchemaNode.withItems, SchemaNode.withRequired, SchemaNode.withEnum, SchemaNode.withPattern,
    SchemaNode.withMinimum, SchemaNode.withMaximum, SchemaNode.withMinLength,
    SchemaNode.withMaxLength, SchemaNode.withDefault, SchemaNode.withOneOf, SchemaNode.withAnyOf,
    SchemaNode.withAllOf, SchemaNode.withRef, SchemaNode.withTitle, SchemaNode.withDefinitions,
    SchemaNode.typeField, SchemaNode.descr, SchemaNode.properties, SchemaNode.items,
    SchemaNode.required, SchemaNode.enum, SchemaNode.pattern, SchemaNode.minimum,
    SchemaNode.maximum, SchemaNode.minLength, SchemaNode.maxLength, SchemaNode.default,
    SchemaNode.oneOf, SchemaNode.anyOf, SchemaNode.allOf, SchemaNode.ref, SchemaNode.title,
    SchemaNode.definitions, schemaString])⟩

/-- Counterexample to C2 as stated: the node `{$ref:"#/definitions/x",
type:"number"}` declares a type and the string value "hi" does not have it,
yet validation emits no error at all, because the `$ref` short-circuit
returns before the type check runs. -/
theorem type_mismatch_skipped_under_ref :
    typeTruthy schemaRefNumber.typeField = true ∧
    (declaredTypes schemaRefNumber.typeField).contains (getValueType (Json.str "hi")) = false ∧
    validateValue rtTrue (Json.str "hi") schemaRefNumber "" = [] := by
  refine ⟨by simp [validate, validateValue, validateProps, validateItems, oneOfMatchCount, anyOfMatch,
    enumErrs, patternErrs, rangeErrs, lengthErrs, requiredErrs, keysOf, asObjFields, asArrElems,
    childPath, strTruthy, typeTruthy, declaredTypes, typeList, getValueType, primEqJson,
    primToString, jsNumToString, emptySchema, rtTrue,
    SchemaNode.withTypeField, SchemaNode.withDescr, SchemaNode.withProperties,
    SchemaNode.withItems, SchemaNode.withRequired, SchemaNode.withEnum, SchemaNode.withPattern,
    SchemaNode.withMinimum, SchemaNode.withMaximum, SchemaNode.withMinLength,
    SchemaNode.withMaxLength, SchemaNode.withDefault, SchemaNode.withOneOf, SchemaNode.withAnyOf,
    SchemaNode.withAllOf, SchemaNode.withRef, SchemaNode.withTitle, SchemaNode.withDefinitions,
    SchemaNode.typeField, SchemaNode.descr, SchemaNode.properties, SchemaNode.items,
    SchemaNode.required, SchemaNode.enum, SchemaNode.pattern, SchemaNode.minimum,
    SchemaNode.maximum, SchemaNode.minLength, SchemaNode.maxLength, SchemaNode.default,
    SchemaNode.oneOf, SchemaNode.anyOf, SchemaNode.allOf, SchemaNode.ref, SchemaNode.title,
    SchemaNode.definitions, schemaRefNumber], by simp [validate, validateValue, validateProps, validateItems, oneOfMatchCount, anyOfMatch,
    enumErrs, patternErrs, rangeErrs, lengthErrs, requiredErrs, keysOf, asObjFields, asArrElems,
    childPath, strTruthy, typeTruthy, declaredTypes, typeList, getValueType, primEqJson,
    primToString, jsNumToString, emptySchema, rtTrue,
    SchemaNode.withTypeField, SchemaNode.withDescr, SchemaNode.withProperties,
    SchemaNode.withItems, SchemaNode.withRequired, SchemaNode.withEnum, SchemaNode.withPattern,
    SchemaNode.withMinimum, SchemaNode.withMaximum, SchemaNode.withMinLength,
    SchemaNode.withMaxLength, SchemaNode.withDefault, SchemaNode.withOneOf, SchemaNode.withAnyOf,
    SchemaNode.withAllOf, SchemaNode.withRef, SchemaNode.withTitle, SchemaNode.withDefinitions,
    SchemaNode.typeField, SchemaNode.descr, SchemaNode.properties, SchemaNode.items,
    SchemaNode.required, SchemaNode.enum, SchemaNode.pattern, SchemaNode.minimum,
    SchemaNode.maximum, SchemaNode.minLength, SchemaNode.maxLength, SchemaNode.default,
    SchemaNode.oneOf, SchemaNode.anyOf, SchemaNode.allOf, SchemaNode.ref, SchemaNode.title,
    SchemaNode.definitions, schemaRefNumber], ?_⟩
  simp [validate, validateValue, validateProps, validateItems, oneOfMatchCount, anyOfMatch,
    enumErrs, patternErrs, rangeErrs, lengthErrs, requiredErrs, keysOf, asObjFields, asArrElems,
    childPath, strTruthy, typeTruthy, declaredTypes, typeList, getValueType, primEqJson,
    primToString, jsNumToString, emptySchema, rtTrue,
    SchemaNode.withTypeField, SchemaNode.withDescr, SchemaNode.withProperties,
    SchemaNode.withItems, SchemaNode.withRequired, SchemaNode.withEnum, SchemaNode.withPattern,
    SchemaNode.withMinimum, SchemaNode.withMaximum, SchemaNode.withMinLength,
    SchemaNode.withMaxLength, SchemaNode.withDefault, SchemaNode.withOneOf, SchemaNode.withAnyOf,
    SchemaNode.withAllOf, SchemaNode.withRef, SchemaNode.withTitle, SchemaNode.withDefinitions,
    SchemaNode.typeField, SchemaNode.descr, SchemaNode.properties, SchemaNode.items,
    SchemaNode.required, SchemaNode.enum, SchemaNode.pattern, SchemaNode.minimum,
    SchemaNode.maximum, SchemaNode.minLength, SchemaNode.maxLength, SchemaNode.default,
    SchemaNode.oneOf, SchemaNode.anyOf, SchemaNode.allOf, SchemaNode.ref, SchemaNode.title,
    SchemaNode.definitions, schemaRefNumber, schemaString]

/-- C1 (amended): on a schema node without a truthy `$ref` — the one
short-circuit that precedes `oneOf` — with `oneOf` present, the value is
checked independently against each subschema with a fresh error sink; the
node passes iff exactly one subschema produces zero errors, and otherwise
exactly the single error "Value must match exactly one of the oneOf
schemas" is emitted at the current path; no further checks run either way. -/
theorem oneOf_exactly_one_match (rt : String → String → Bool) (v : Json)
    (s : SchemaNode) (p : String) (subs : List SchemaNode)
    (hr : strTruthy s.ref = false) (h1 : s.oneOf = some subs) :
    validateValue rt v s p =
      (if subs.countP (fun sub => (validateValue rt v sub p).isEmpty) = 1 then []
       else [⟨p, "Value must match exactly one of the oneOf schemas", some v⟩]) := by
  have hL : validateValue rt v s p =
      (if oneOfMatchCount rt v subs p = 1 then []
       else [⟨p, "Value must match exactly one of the oneOf schemas", some v⟩]) := by
    simp only [validateValue, hr, Bool.false_eq_true, if_false]
    split
    case _ subs2 heq =>
      rw [h1] at heq
      injection heq with heq2
      subst heq2
      simp [bne_iff_ne]
    case _ heq =>
      rw [h1] at heq
      cases heq
  rw [hL, oneOfMatchCount_eq_countP]

/-- Witness for C1: the string "x" against `{oneOf:[{type:"string"}]}`. -/
theorem oneOf_exactly_one_match_witness :
    strTruthy (emptySchema.withOneOf (some [schemaString])).ref = false ∧
    (emptySchema.withOneOf (some [schemaString])).oneOf = some [schemaString] ∧
    validateValue rtTrue (Json.str "x") (emptySchema.withOneOf (some [schemaString])) "" =
      (if ([schemaString].countP
            (fun sub => (validateValue rtTrue (Json.str "x") sub "").isEmpty)) = 1 then []
       else [⟨"", "Value must match exactly one of the oneOf schemas", some (Json.str "x")⟩]) :=
  ⟨by simp [validate, validateValue, validateProps, validateItems, oneOfMatchCount, anyOfMatch,
    enumErrs, patternErrs, rangeErrs, lengthErrs, requiredErrs, keysOf, asObjFields, asArrElems,
    childPath, strTruthy, typeTruthy, declaredTypes, typeList, getValueType, primEqJson,
    primToString, jsNumToString, emptySchema, rtTrue,
    SchemaNode.withTypeField, SchemaNode.withDescr, SchemaNode.withProperties,
    SchemaNode.withItems, SchemaNode.withRequired, SchemaNode.withEnum, SchemaNode.withPattern,
    SchemaNode.withMinimum, SchemaNode.withMaximum, SchemaNode.withMinLength,
    SchemaNode.withMaxLength, SchemaNode.withDefault, SchemaNode.withOneOf, SchemaNode.withAnyOf,
    SchemaNode.withAllOf, SchemaNode.withRef, SchemaNode.withTitle, SchemaNode.withDefinitions,
    SchemaNode.typeField, SchemaNode.descr, SchemaNode.properties, SchemaNode.items,
    SchemaNode.required, SchemaNode.enum, SchemaNode.pattern, SchemaNode.minimum,
    SchemaNode.maximum, SchemaNode.minLength, SchemaNode.maxLength, SchemaNode.default,
    SchemaNode.oneOf, SchemaNode.anyOf, SchemaNode.allOf, SchemaNode.ref, SchemaNode.title,
    SchemaNode.definitions],
   by simp [validate, validateValue, validateProps, validateItems, oneOfMatchCount, anyOfMatch,
    enumErrs, patternErrs, rangeErrs, lengthErrs, requiredErrs, keysOf, asObjFields, asArrElems,
    childPath, strTruthy, typeTruthy, declaredTypes, typeList, getValueType, primEqJson,
    primToString, jsNumToString, emptySchema, rtTrue,
    SchemaNode.withTypeField, SchemaNode.withDescr, SchemaNode.withProperties,
    SchemaNode.withItems, SchemaNode.withRequired, SchemaNode.withEnum, SchemaNode.withPattern,
    SchemaNode.withMinimum, SchemaNode.withMaximum, SchemaNode.withMinLength,
    SchemaNode.withMaxLength, SchemaNode.withDefault, SchemaNode.withOneOf, SchemaNode.withAnyOf,
    SchemaNode.withAllOf, SchemaNode.withRef, SchemaNode.withTitle, SchemaNode.withDefinitions,
    SchemaNode.typeField, SchemaNode.descr, SchemaNode.properties, SchemaNode.items,
    SchemaNode.required, SchemaNode.enum, SchemaNode.pattern, SchemaNode.minimum,
    SchemaNode.maximum, SchemaNode.minLength, SchemaNode.maxLength, SchemaNode.default,
    SchemaNode.oneOf, SchemaNode.anyOf, SchemaNode.allOf, SchemaNode.ref, SchemaNode.title,
    SchemaNode.definitions],
   oneOf_exactly_one_match rtTrue (Json.str "x") (emptySchema.withOneOf (some [schemaString])) ""
     [schemaString] (by simp [validate, validateValue, validateProps, validateItems, oneOfMatchCount, anyOfMatch,
    enumErrs, patternErrs, rangeErrs, lengthErrs, requiredErrs, keysOf, asObjFields, asArrElems,
    childPath, strTruthy, typeTruthy, declaredTypes, typeList, getValueType, primEqJson,
    primToString, jsNumToString, emptySchema, rtTrue,
    SchemaNode.withTypeField, SchemaNode.withDescr, SchemaNode.withProperties,
    SchemaNode.withItems, SchemaNode.withRequired, SchemaNode.withEnum, SchemaNode.withPattern,
    SchemaNode.withMinimum, SchemaNode.withMaximum, SchemaNode.withMinLength,
    SchemaNode.withMaxLength, SchemaNode.withDefault, SchemaNode.withOneOf, SchemaNode.withAnyOf,
    SchemaNode.withAllOf, SchemaNode.withRef, SchemaNode.withTitle, SchemaNode.withDefinitions,
    SchemaNode.typeField, SchemaNode.descr, SchemaNode.properties, SchemaNode.items,
    SchemaNode.required, SchemaNode.enum, SchemaNode.pattern, SchemaNode.minimum,
    SchemaNode.maximum, SchemaNode.minLength, SchemaNode.maxLength, SchemaNode.default,
    SchemaNode.oneOf, SchemaNode.anyOf, SchemaNode.allOf, SchemaNode.ref, SchemaNode.title,
    SchemaNode.definitions]) (by simp [validate, validateValue, validateProps, validateItems, oneOfMatchCount, anyOfMatch,
    enumErrs, patternErrs, rangeErrs, lengthErrs, requiredErrs, keysOf, asObjFields, asArrElems,
    childPath, strTruthy, typeTruthy, declaredTypes, typeList, getValueType, primEqJson,
    primToString, jsNumToString, emptySchema, rtTrue,
    SchemaNode.withTypeField, SchemaNode.withDescr, SchemaNode.withProperties,
    SchemaNode.withItems, SchemaNode.withRequired, SchemaNode.withEnum, SchemaNode.withPattern,
    SchemaNode.withMinimum, SchemaNode.withMaximum, SchemaNode.withMinLength,
    SchemaNode.withMaxLength, SchemaNode.withDefault, SchemaNode.withOneOf, SchemaNode.withAnyOf,
    SchemaNode.withAllOf, SchemaNode.withRef, SchemaNode.withTitle, SchemaNode.withDefinitions,
    SchemaNode.typeField, SchemaNode.descr, SchemaNode.properties, SchemaNode.items,
    SchemaNode.required, SchemaNode.enum, SchemaNode.pattern, SchemaNode.minimum,
    SchemaNode.maximum, SchemaNode.minLength, SchemaNode.maxLength, SchemaNode.default,
    SchemaNode.oneOf, SchemaNode.anyOf, SchemaNode.allOf, SchemaNode.ref, SchemaNode.title,
    SchemaNode.definitions])⟩

/-- Counterexample to C1 as stated: on `{$ref:"#/definitions/x",
oneOf:[{type:"string"}]}` the integer 42 matches zero subschemas, yet no
error is emitted, because the `$ref` short-circuit precedes `oneOf`. -/
theorem oneOf_skipped_under_ref :
    ([schemaString].countP
      (fun sub => (validateValue rtTrue (Json.num 42) sub "").isEmpty)) = 0 ∧
    schemaRefOneOf.oneOf = some [schemaString] ∧
    validateValue rtTrue (Json.num 42) schemaRefOneOf "" = [] := by
  refine ⟨?_, by simp [validate, validateValue, validateProps, validateItems, oneOfMatchCount, anyOfMatch,
    enumErrs, patternErrs, rangeErrs, lengthErrs, requiredErrs, keysOf, asObjFields, asArrElems,
    childPath, strTruthy, typeTruthy, declaredTypes, typeList, getValueType, primEqJson,
    primToString, jsNumToString, emptySchema, rtTrue,
    SchemaNode.withTypeField, SchemaNode.withDescr, SchemaNode.withProperties,
    SchemaNode.withItems, SchemaNode.withRequired, SchemaNode.withEnum, SchemaNode.withPattern,
    SchemaNode.withMinimum, SchemaNode.withMaximum, SchemaNode.withMinLength,
    SchemaNode.withMaxLength, SchemaNode.withDefault, SchemaNode.withOneOf, SchemaNode.withAnyOf,
    SchemaNode.withAllOf, SchemaNode.withRef, SchemaNode.withTitle, SchemaNode.withDefinitions,
    SchemaNode.typeField, SchemaNode.descr, SchemaNode.properties, SchemaNode.items,
    SchemaNode.required, SchemaNode.enum, SchemaNode.pattern, SchemaNode.minimum,
    SchemaNode.maximum, SchemaNode.minLength, SchemaNode.maxLength, SchemaNode.default,
    SchemaNode.oneOf, SchemaNode.anyOf, SchemaNode.allOf, SchemaNode.ref, SchemaNode.title,
    SchemaNode.definitions, schemaRefOneOf, schemaString], ?_⟩
  · simp [validate, validateValue, validateProps, validateItems, oneOfMatchCount, anyOfMatch,
    enumErrs, patternErrs, rangeErrs, lengthErrs, requiredErrs, keysOf, asObjFields, asArrElems,
    childPath, strTruthy, typeTruthy, declaredTypes, typeList, getValueType, primEqJson,
    primToString, jsNumToString, emptySchema, rtTrue,
    SchemaNode.withTypeField, SchemaNode.withDescr, SchemaNode.withProperties,
    SchemaNode.withItems, SchemaNode.withRequired, SchemaNode.withEnum, SchemaNode.withPattern,
    SchemaNode.withMinimum, SchemaNode.withMaximum, SchemaNode.withMinLength,
    SchemaNode.withMaxLength, SchemaNode.withDefault, SchemaNode.withOneOf, SchemaNode.withAnyOf,
    SchemaNode.withAllOf, SchemaNode.withRef, SchemaNode.withTitle, SchemaNode.withDefinitions,
    SchemaNode.typeField, SchemaNode.descr, SchemaNode.properties, SchemaNode.items,
    SchemaNode.required, SchemaNode.enum, SchemaNode.pattern, SchemaNode.minimum,
    SchemaNode.maximum, SchemaNode.minLength, SchemaNode.maxLength, SchemaNode.default,
    SchemaNode.oneOf, SchemaNode.anyOf, SchemaNode.allOf, SchemaNode.ref, SchemaNode.title,
    SchemaNode.definitions, schemaString]
  · simp [validate, validateValue, validateProps, validateItems, oneOfMatchCount, anyOfMatch,
    enumErrs, patternErrs, rangeErrs, lengthErrs, requiredErrs, keysOf, asObjFields, asArrElems,
    childPath, strTruthy, typeTruthy, declaredTypes, typeList, getValueType, primEqJson,
    primToString, jsNumToString, emptySchema, rtTrue,
    SchemaNode.withTypeField, SchemaNode.withDescr, SchemaNode.withProperties,
    SchemaNode.withItems, SchemaNode.withRequired, SchemaNode.withEnum, SchemaNode.withPattern,
    SchemaNode.withMinimum, SchemaNode.withMaximum, SchemaNode.withMinLength,
    SchemaNode.withMaxLength, SchemaNode.withDefault, SchemaNode.withOneOf, SchemaNode.withAnyOf,
    SchemaNode.withAllOf, SchemaNode.withRef, SchemaNode.withTitle, SchemaNode.withDefinitions,
    SchemaNode.typeField, SchemaNode.descr, SchemaNode.properties, SchemaNode.items,
    SchemaNode.required, SchemaNode.enum, SchemaNode.pattern, SchemaNode.minimum,
    SchemaNode.maximum, SchemaNode.minLength, SchemaNode.maxLength, SchemaNode.default,
    SchemaNode.oneOf, SchemaNode.anyOf, SchemaNode.allOf, SchemaNode.ref, SchemaNode.title,
    SchemaNode.definitions, schemaRefOneOf, schemaString]

/-- C3 (consequence part amended): `getValueType` classifies `null` as
"null", arrays as "array", and an integral number as "integer" and never as
"number"; consequently, on a node whose declared type set is exactly
{"number"} and that carries no truthy `$ref` and no `oneOf`/`anyOf` (the
short-circuits that precede the type check), every integral numeric value is
reported as the type mismatch "Expected type number, got integer". -/
theorem getValueType_integer_never_number :
    getValueType Json.null = "null" ∧
    (∀ l : List Json, getValueType (Json.arr l) = "array") ∧
    (∀ q : Rat, q.den = 1 → getValueType (Json.num q) = "integer") ∧
    (∀ q : Rat, q.den = 1 → getValueType (Json.num q) ≠ "number") ∧
    (∀ (rt : String → String → Bool) (q : Rat) (s : SchemaNode) (tf : TypeField),
      q.den = 1 → strTruthy s.ref = false → s.oneOf = none → s.anyOf = none →
      s.typeField = some tf → typeList tf = ["number"] →
      (validate rt (Json.num q) s).errors =
        [⟨"", "Expected type number, got integer", some (Json.num q)⟩] ∧
      (validate rt (Json.num q) s).valid = false) := by
  refine ⟨rfl, fun l => rfl, fun q hq => by simp [getValueType, hq],
    fun q hq => by simp [getValueType, hq], ?_⟩
  intro rt q s tf hq hr ho ha htf htl
  have ht : typeTruthy s.typeField = true := by
    rw [htf]
    cases tf with
    | single t =>
      simp [typeList] at htl
      simp [typeTruthy, htl]
    | many ts => simp [typeTruthy]
  have hdecl : declaredTypes s.typeField = ["number"] := by
    rw [htf]
    exact htl
  have hgv : getValueType (Json.num q) = "integer" := by simp [getValueType, hq]
  have hm : (declaredTypes s.typeField).contains (getValueType (Json.num q)) = false := by
    rw [hdecl, hgv]
    decide
  have herr : (validate rt (Json.num q) s).errors = validateValue rt (Json.num q) s "" := rfl
  rw [validateValue_type_mismatch rt (Json.num q) s "" hr ho ha ht hm] at herr
  rw [hdecl, hgv] at herr
  have hmsg : "Expected type " ++ String.intercalate " | " ["number"] ++ ", got " ++ "integer" =
      "Expected type number, got integer" := by decide
  rw [hmsg] at herr
  constructor
  · exact herr
  · show (validateValue rt (Json.num q) s "").isEmpty = false
    rw [validateValue_type_mismatch rt (Json.num q) s "" hr ho ha ht hm]
    rfl

/-- Witness for C3: the integral value 5 against `{type:"number"}`. -/
theorem getValueType_integer_never_number_witness :
    (5 : Rat).den = 1 ∧
    strTruthy (emptySchema.withTypeField (some (.single "number"))).ref = false ∧
    typeList (.single "number") = ["number"] ∧
    (validate rtTrue (Json.num 5) (emptySchema.withTypeField (some (.single "number")))).errors =
      [⟨"", "Expected type number, got integer", some (Json.num 5)⟩] :=
  ⟨by norm_num, by simp [validate, validateValue, validateProps, validateItems, oneOfMatchCount, anyOfMatch,
    enumErrs, patternErrs, rangeErrs, lengthErrs, requiredErrs, keysOf, asObjFields, asArrElems,
    childPath, strTruthy, typeTruthy, declaredTypes, typeList, getValueType, primEqJson,
    primToString, jsNumToString, emptySchema, rtTrue,
    SchemaNode.withTypeField, SchemaNode.withDescr, SchemaNode.withProperties,
    SchemaNode.withItems, SchemaNode.withRequired, SchemaNode.withEnum, SchemaNode.withPattern,
    SchemaNode.withMinimum, SchemaNode.withMaximum, SchemaNode.withMinLength,
    SchemaNode.withMaxLength, SchemaNode.withDefault, SchemaNode.withOneOf, SchemaNode.withAnyOf,
    SchemaNode.withAllOf, SchemaNode.withRef, SchemaNode.withTitle, SchemaNode.withDefinitions,
    SchemaNode.typeField, SchemaNode.descr, SchemaNode.properties, SchemaNode.items,
    SchemaNode.required, SchemaNode.enum, SchemaNode.pattern, SchemaNode.minimum,
    SchemaNode.maximum, SchemaNode.minLength, SchemaNode.maxLength, SchemaNode.default,
    SchemaNode.oneOf, SchemaNode.anyOf, SchemaNode.allOf, SchemaNode.ref, SchemaNode.title,
    SchemaNode.definitions], by simp [validate, validateValue, validateProps, validateItems, oneOfMatchCount, anyOfMatch,
    enumErrs, patternErrs, rangeErrs, lengthErrs, requiredErrs, keysOf, asObjFields, asArrElems,
    childPath, strTruthy, typeTruthy, declaredTypes, typeList, getValueType, primEqJson,
    primToString, jsNumToString, emptySchema, rtTrue,
    SchemaNode.withTypeField, SchemaNode.withDescr, SchemaNode.withProperties,
    SchemaNode.withItems, SchemaNode.withRequired, SchemaNode.withEnum, SchemaNode.withPattern,
    SchemaNode.withMinimum, SchemaNode.withMaximum, SchemaNode.withMinLength,
    SchemaNode.withMaxLength, SchemaNode.withDefault, SchemaNode.withOneOf, SchemaNode.withAnyOf,
    SchemaNode.withAllOf, SchemaNode.withRef, SchemaNode.withTitle, SchemaNode.withDefinitions,
    SchemaNode.typeField, SchemaNode.descr, SchemaNode.properties, SchemaNode.items,
    SchemaNode.required, SchemaNode.enum, SchemaNode.pattern, SchemaNode.minimum,
    SchemaNode.maximum, SchemaNode.minLength, SchemaNode.maxLength, SchemaNode.default,
    SchemaNode.oneOf, SchemaNode.anyOf, SchemaNode.allOf, SchemaNode.ref, SchemaNode.title,
    SchemaNode.definitions],
   (getValueType_integer_never_number.2.2.2.2 rtTrue 5
     (emptySchema.withTypeField (some (.single "number"))) (.single "number")
     (by norm_num) (by simp [validate, validateValue, validateProps, validateItems, oneOfMatchCount, anyOfMatch,
    enumErrs, patternErrs, rangeErrs, lengthErrs, requiredErrs, keysOf, asObjFields, asArrElems,
    childPath, strTruthy, typeTruthy, declaredTypes, typeList, getValueType, primEqJson,
    primToString, jsNumToString, emptySchema, rtTrue,
    SchemaNode.withTypeField, SchemaNode.withDescr, SchemaNode.withProperties,
    SchemaNode.withItems, SchemaNode.withRequired, SchemaNode.withEnum, SchemaNode.withPattern,
    SchemaNode.withMinimum, SchemaNode.withMaximum, SchemaNode.withMinLength,
    SchemaNode.withMaxLength, SchemaNode.withDefault, SchemaNode.withOneOf, SchemaNode.withAnyOf,
    SchemaNode.withAllOf, SchemaNode.withRef, SchemaNode.withTitle, SchemaNode.withDefinitions,
    SchemaNode.typeField, SchemaNode.descr, SchemaNode.properties, SchemaNode.items,
    SchemaNode.required, SchemaNode.enum, SchemaNode.pattern, SchemaNode.minimum,
    SchemaNode.maximum, SchemaNode.minLength, SchemaNode.maxLength, SchemaNode.default,
    SchemaNode.oneOf, SchemaNode.anyOf, SchemaNode.allOf, SchemaNode.ref, SchemaNode.title,
    SchemaNode.definitions]) (by simp [validate, validateValue, validateProps, validateItems, oneOfMatchCount, anyOfMatch,
    enumErrs, patternErrs, rangeErrs, lengthErrs, requiredErrs, keysOf, asObjFields, asArrElems,
    childPath, strTruthy, typeTruthy, declaredTypes, typeList, getValueType, primEqJson,
    primToString, jsNumToString, emptySchema, rtTrue,
    SchemaNode.withTypeField, SchemaNode.withDescr, SchemaNode.withProperties,
    SchemaNode.withItems, SchemaNode.withRequired, SchemaNode.withEnum, SchemaNode.withPattern,
    SchemaNode.withMinimum, SchemaNode.withMaximum, SchemaNode.withMinLength,
    SchemaNode.withMaxLength, SchemaNode.withDefault, SchemaNode.withOneOf, SchemaNode.withAnyOf,
    SchemaNode.withAllOf, SchemaNode.withRef, SchemaNode.withTitle, SchemaNode.withDefinitions,
    SchemaNode.typeField, SchemaNode.descr, SchemaNode.properties, SchemaNode.items,
    SchemaNode.required, SchemaNode.enum, SchemaNode.pattern, SchemaNode.minimum,
    SchemaNode.maximum, SchemaNode.minLength, SchemaNode.maxLength, SchemaNode.default,
    SchemaNode.oneOf, SchemaNode.anyOf, SchemaNode.allOf, SchemaNode.ref, SchemaNode.title,
    SchemaNode.definitions]) (by simp [validate, validateValue, validateProps, validateItems, oneOfMatchCount, anyOfMatch,
    enumErrs, patternErrs, rangeErrs, lengthErrs, requiredErrs, keysOf, asObjFields, asArrElems,
    childPath, strTruthy, typeTruthy, declaredTypes, typeList, getValueType, primEqJson,
    primToString, jsNumToString, emptySchema, rtTrue,
    SchemaNode.withTypeField, SchemaNode.withDescr, SchemaNode.withProperties,
    SchemaNode.withItems, SchemaNode.withRequired, SchemaNode.withEnum, SchemaNode.withPattern,
    SchemaNode.withMinimum, SchemaNode.withMaximum, SchemaNode.withMinLength,
    SchemaNode.withMaxLength, SchemaNode.withDefault, SchemaNode.withOneOf, SchemaNode.withAnyOf,
    SchemaNode.withAllOf, SchemaNode.withRef, SchemaNode.withTitle, SchemaNode.withDefinitions,
    SchemaNode.typeField, SchemaNode.descr, SchemaNode.properties, SchemaNode.items,
    SchemaNode.required, SchemaNode.enum, SchemaNode.pattern, SchemaNode.minimum,
    SchemaNode.maximum, SchemaNode.minLength, SchemaNode.maxLength, SchemaNode.default,
    SchemaNode.oneOf, SchemaNode.anyOf, SchemaNode.allOf, SchemaNode.ref, SchemaNode.title,
    SchemaNode.definitions])
     (by simp [validate, validateValue, validateProps, validateItems, oneOfMatchCount, anyOfMatch,
    enumErrs, patternErrs, rangeErrs, lengthErrs, requiredErrs, keysOf, asObjFields, asArrElems,
    childPath, strTruthy, typeTruthy, declaredTypes, typeList, getValueType, primEqJson,
    primToString, jsNumToString, emptySchema, rtTrue,
    SchemaNode.withTypeField, SchemaNode.withDescr, SchemaNode.withProperties,
    SchemaNode.withItems, SchemaNode.withRequired, SchemaNode.withEnum, SchemaNode.withPattern,
    SchemaNode.withMinimum, SchemaNode.withMaximum, SchemaNode.withMinLength,
    SchemaNode.withMaxLength, SchemaNode.withDefault, SchemaNode.withOneOf, SchemaNode.withAnyOf,
    SchemaNode.withAllOf, SchemaNode.withRef, SchemaNode.withTitle, SchemaNode.withDefinitions,
    SchemaNode.typeField, SchemaNode.descr, SchemaNode.properties, SchemaNode.items,
    SchemaNode.required, SchemaNode.enum, SchemaNode.pattern, SchemaNode.minimum,
    SchemaNode.maximum, SchemaNode.minLength, SchemaNode.maxLength, SchemaNode.default,
    SchemaNode.oneOf, SchemaNode.anyOf, SchemaNode.allOf, SchemaNode.ref, SchemaNode.title,
    SchemaNode.definitions]) (by simp [validate, validateValue, validateProps, validateItems, oneOfMatchCount, anyOfMatch,
    enumErrs, patternErrs, rangeErrs, lengthErrs, requiredErrs, keysOf, asObjFields, asArrElems,
    childPath, strTruthy, typeTruthy, declaredTypes, typeList, getValueType, primEqJson,
    primToString, jsNumToString, emptySchema, rtTrue,
    SchemaNode.withTypeField, SchemaNode.withDescr, SchemaNode.withProperties,
    SchemaNode.withItems, SchemaNode.withRequired, SchemaNode.withEnum, SchemaNode.withPattern,
    SchemaNode.withMinimum, SchemaNode.withMaximum, SchemaNode.withMinLength,
    SchemaNode.withMaxLength, SchemaNode.withDefault, SchemaNode.withOneOf, SchemaNode.withAnyOf,
    SchemaNode.withAllOf, SchemaNode.withRef, SchemaNode.withTitle, SchemaNode.withDefinitions,
    SchemaNode.typeField, SchemaNode.descr, SchemaNode.properties, SchemaNode.items,
    SchemaNode.required, SchemaNode.enum, SchemaNode.pattern, SchemaNode.minimum,
    SchemaNode.maximum, SchemaNode.minLength, SchemaNode.maxLength, SchemaNode.default,
    SchemaNode.oneOf, SchemaNode.anyOf, SchemaNode.allOf, SchemaNode.ref, SchemaNode.title,
    SchemaNode.definitions])).1⟩

/-- Counterexample to C3's consequence as stated: on `{type:"number",
oneOf:[{type:"integer"}]}` — a node whose declared type set is exactly
{"number"} — the integral value 5 validates with no errors at all, because
the `oneOf` combinator short-circuits the type check. -/
theorem integer_accepted_despite_number_type :
    schemaNumberOneOfInt.typeField = some (.single "number") ∧
    (5 : Rat).den = 1 ∧
    validate rtTrue (Json.num 5) schemaNumberOneOfInt = ⟨true, []⟩ := by
  refine ⟨by simp [validate, validateValue, validateProps, validateItems, oneOfMatchCount, anyOfMatch,
    enumErrs, patternErrs, rangeErrs, lengthErrs, requiredErrs, keysOf, asObjFields, asArrElems,
    childPath, strTruthy, typeTruthy, declaredTypes, typeList, getValueType, primEqJson,
    primToString, jsNumToString, emptySchema, rtTrue,
    SchemaNode.withTypeField, SchemaNode.withDescr, SchemaNode.withProperties,
    SchemaNode.withItems, SchemaNode.withRequired, SchemaNode.withEnum, SchemaNode.withPattern,
    SchemaNode.withMinimum, SchemaNode.withMaximum, SchemaNode.withMinLength,
    SchemaNode.withMaxLength, SchemaNode.withDefault, SchemaNode.withOneOf, SchemaNode.withAnyOf,
    SchemaNode.withAllOf, SchemaNode.withRef, SchemaNode.withTitle, SchemaNode.withDefinitions,
    SchemaNode.typeField, SchemaNode.descr, SchemaNode.properties, SchemaNode.items,
    SchemaNode.required, SchemaNode.enum, SchemaNode.pattern, SchemaNode.minimum,
    SchemaNode.maximum, SchemaNode.minLength, SchemaNode.maxLength, SchemaNode.default,
    SchemaNode.oneOf, SchemaNode.anyOf, SchemaNode.allOf, SchemaNode.ref, SchemaNode.title,
    SchemaNode.definitions, schemaNumberOneOfInt], by norm_num, ?_⟩
  simp [validate, validateValue, validateProps, validateItems, oneOfMatchCount, anyOfMatch,
    enumErrs, patternErrs, rangeErrs, lengthErrs, requiredErrs, keysOf, asObjFields, asArrElems,
    childPath, strTruthy, typeTruthy, declaredTypes, typeList, getValueType, primEqJson,
    primToString, jsNumToString, emptySchema, rtTrue,
    SchemaNode.withTypeField, SchemaNode.withDescr, SchemaNode.withProperties,
    SchemaNode.withItems, SchemaNode.withRequired, SchemaNode.withEnum, SchemaNode.withPattern,
    SchemaNode.withMinimum, SchemaNode.withMaximum, SchemaNode.withMinLength,
    SchemaNode.withMaxLength, SchemaNode.withDefault, SchemaNode.withOneOf, SchemaNode.withAnyOf,
    SchemaNode.withAllOf, SchemaNode.withRef, SchemaNode.withTitle, SchemaNode.withDefinitions,
    SchemaNode.typeField, SchemaNode.descr, SchemaNode.properties, SchemaNode.items,
    SchemaNode.required, SchemaNode.enum, SchemaNode.pattern, SchemaNode.minimum,
    SchemaNode.maximum, SchemaNode.minLength, SchemaNode.maxLength, SchemaNode.default,
    SchemaNode.oneOf, SchemaNode.anyOf, SchemaNode.allOf, SchemaNode.ref, SchemaNode.title,
    SchemaNode.definitions, schemaNumberOneOfInt]

/-- C4 (amended): on an object-typed schema node without `$ref`, `oneOf` or
`anyOf`, for each required field `fi` that occurs exactly once in `required`,
contains no '.' and no '[' (which could collide with paths of deeper
errors), and is not a key of the object — with all declared property names
nonempty — the validation output contains exactly one error with message
"Required field missing" and path `{parent}.{fi}` (just `fi` when the parent
path is empty); this holds per missing field, so all missing fields are
reported.  The second conjunct is concrete scenario 1: schema
`{type:"object", properties:{name:{type:"string"}}, required:["name"]}` with
document `{}` yields exactly
`{valid:false, errors:[{path:"name", message:"Required field missing"}]}`. -/
theorem required_missing_reported_exactly_once :
    (∀ (rt : String → String → Bool) (fields : List (String × Json)) (s : SchemaNode)
       (p fi : String) (req : List String),
      strTruthy s.ref = false → s.oneOf = none → s.anyOf = none →
      s.typeField = some (.single "object") →
      s.required = some req → req.count fi = 1 →
      (keysOf fields).contains fi = false →
      '.' ∉ fi.data → '[' ∉ fi.data →
      (∀ props, s.properties = some props → ∀ kp ∈ props, Prod.fst kp ≠ "") →
      (validateValue rt (Json.obj fields) s p).countP
        (fun e => (e.path == childPath p fi) && (e.message == "Required field missing")) = 1) ∧
    validate rtTrue (Json.obj []) schemaRequiredName =
      ⟨false, [⟨"name", "Required field missing", none⟩]⟩ := by
  constructor
  · intro rt fields s p fi req hr ho ha hty hreq hcount hmiss hdot hbr hkeys
    exact validateValue_required_count rt fields s p fi req hr ho ha hty hreq hcount
      hmiss hdot hbr hkeys
  · simp [validate, validateValue, validateProps, validateItems, oneOfMatchCount, anyOfMatch,
    enumErrs, patternErrs, rangeErrs, lengthErrs, requiredErrs, keysOf, asObjFields, asArrElems,
    childPath, strTruthy, typeTruthy, declaredTypes, typeList, getValueType, primEqJson,
    primToString, jsNumToString, emptySchema, rtTrue,
    SchemaNode.withTypeField, SchemaNode.withDescr, SchemaNode.withProperties,
    SchemaNode.withItems, SchemaNode.withRequired, SchemaNode.withEnum, SchemaNode.withPattern,
    SchemaNode.withMinimum, SchemaNode.withMaximum, SchemaNode.withMinLength,
    SchemaNode.withMaxLength, SchemaNode.withDefault, SchemaNode.withOneOf, SchemaNode.withAnyOf,
    SchemaNode.withAllOf, SchemaNode.withRef, SchemaNode.withTitle, SchemaNode.withDefinitions,
    SchemaNode.typeField, SchemaNode.descr, SchemaNode.properties, SchemaNode.items,
    SchemaNode.required, SchemaNode.enum, SchemaNode.pattern, SchemaNode.minimum,
    SchemaNode.maximum, SchemaNode.minLength, SchemaNode.maxLength, SchemaNode.default,
    SchemaNode.oneOf, SchemaNode.anyOf, SchemaNode.allOf, SchemaNode.ref, SchemaNode.title,
    SchemaNode.definitions, schemaRequiredName, schemaString]

/-- Witness for C4: the missing field "name" of scenario 1 is counted
exactly once. -/
theorem required_missing_reported_exactly_once_witness :
    (validateValue rtTrue (Json.obj []) schemaRequiredName "").countP
      (fun e => (e.path == childPath "" "name") && (e.message == "Required field missing")) = 1 :=
  required_missing_reported_exactly_once.1 rtTrue [] schemaRequiredName "" "name" ["name"]
    (by simp [validate, validateValue, validateProps, validateItems, oneOfMatchCount, anyOfMatch,
    enumErrs, patternErrs, rangeErrs, lengthErrs, requiredErrs, keysOf, asObjFields, asArrElems,
    childPath, strTruthy, typeTruthy, declaredTypes, typeList, getValueType, primEqJson,
    primToString, jsNumToString, emptySchema, rtTrue,
    SchemaNode.withTypeField, SchemaNode.withDescr, SchemaNode.withProperties,
    SchemaNode.withItems, SchemaNode.withRequired, SchemaNode.withEnum, SchemaNode.withPattern,
    SchemaNode.withMinimum, SchemaNode.withMaximum, SchemaNode.withMinLength,
    SchemaNode.withMaxLength, SchemaNode.withDefault, SchemaNode.withOneOf, SchemaNode.withAnyOf,
    SchemaNode.withAllOf, SchemaNode.withRef, SchemaNode.withTitle, SchemaNode.withDefinitions,
    SchemaNode.typeField, SchemaNode.descr, SchemaNode.properties, SchemaNode.items,
    SchemaNode.required, SchemaNode.enum, SchemaNode.pattern, SchemaNode.minimum,
    SchemaNode.maximum, SchemaNode.minLength, SchemaNode.maxLength, SchemaNode.default,
    SchemaNode.oneOf, SchemaNode.anyOf, SchemaNode.allOf, SchemaNode.ref, SchemaNode.title,
    SchemaNode.definitions, schemaRequiredName, schemaString])
    (by simp [validate, validateValue, validateProps, validateItems, oneOfMatchCount, anyOfMatch,
    enumErrs, patternErrs, rangeErrs, lengthErrs, requiredErrs, keysOf, asObjFields, asArrElems,
    childPath, strTruthy, typeTruthy, declaredTypes, typeList, getValueType, primEqJson,
    primToString, jsNumToString, emptySchema, rtTrue,
    SchemaNode.withTypeField, SchemaNode.withDescr, SchemaNode.withProperties,
    SchemaNode.withItems, SchemaNode.withRequired, SchemaNode.withEnum, SchemaNode.withPattern,
    SchemaNode.withMinimum, SchemaNode.withMaximum, SchemaNode.withMinLength,
    SchemaNode.withMaxLength, SchemaNode.withDefault, SchemaNode.withOneOf, SchemaNode.withAnyOf,
    SchemaNode.withAllOf, SchemaNode.withRef, SchemaNode.withTitle, SchemaNode.withDefinitions,
    SchemaNode.typeField, SchemaNode.descr, SchemaNode.properties, SchemaNode.items,
    SchemaNode.required, SchemaNode.enum, SchemaNode.pattern, SchemaNode.minimum,
    SchemaNode.maximum, SchemaNode.minLength, SchemaNode.maxLength, SchemaNode.default,
    SchemaNode.oneOf, SchemaNode.anyOf, SchemaNode.allOf, SchemaNode.ref, SchemaNode.title,
    SchemaNode.definitions, schemaRequiredName, schemaString])
    (by simp [validate, validateValue, validateProps, validateItems, oneOfMatchCount, anyOfMatch,
    enumErrs, patternErrs, rangeErrs, lengthErrs, requiredErrs, keysOf, asObjFields, asArrElems,
    childPath, strTruthy, typeTruthy, declaredTypes, typeList, getValueType, primEqJson,
    primToString, jsNumToString, emptySchema, rtTrue,
    SchemaNode.withTypeField, SchemaNode.withDescr, SchemaNode.withProperties,
    SchemaNode.withItems, SchemaNode.withRequired, SchemaNode.withEnum, SchemaNode.withPattern,
    SchemaNode.withMinimum, SchemaNode.withMaximum, SchemaNode.withMinLength,
    SchemaNode.withMaxLength, SchemaNode.withDefault, SchemaNode.withOneOf, SchemaNode.withAnyOf,
    SchemaNode.withAllOf, SchemaNode.withRef, SchemaNode.withTitle, SchemaNode.withDefinitions,
    SchemaNode.typeField, SchemaNode.descr, SchemaNode.properties, SchemaNode.items,
    SchemaNode.required, SchemaNode.enum, SchemaNode.pattern, SchemaNode.minimum,
    SchemaNode.maximum, SchemaNode.minLength, SchemaNode.maxLength, SchemaNode.default,
    SchemaNode.oneOf, SchemaNode.anyOf, SchemaNode.allOf, SchemaNode.ref, SchemaNode.title,
    SchemaNode.definitions, schemaRequiredName, schemaString])
    (by simp [validate, validateValue, validateProps, validateItems, oneOfMatchCount, anyOfMatch,
    enumErrs, patternErrs, rangeErrs, lengthErrs, requiredErrs, keysOf, asObjFields, asArrElems,
    childPath, strTruthy, typeTruthy, declaredTypes, typeList, getValueType, primEqJson,
    primToString, jsNumToString, emptySchema, rtTrue,
    SchemaNode.withTypeField, SchemaNode.withDescr, SchemaNode.withProperties,
    SchemaNode.withItems, SchemaNode.withRequired, SchemaNode.withEnum, SchemaNode.withPattern,
    SchemaNode.withMinimum, SchemaNode.withMaximum, SchemaNode.withMinLength,
    SchemaNode.withMaxLength, SchemaNode.withDefault, SchemaNode.withOneOf, SchemaNode.withAnyOf,
    SchemaNode.withAllOf, SchemaNode.withRef, SchemaNode.withTitle, SchemaNode.withDefinitions,
    SchemaNode.typeField, SchemaNode.descr, SchemaNode.properties, SchemaNode.items,
    SchemaNode.required, SchemaNode.enum, SchemaNode.pattern, SchemaNode.minimum,
    SchemaNode.maximum, SchemaNode.minLength, SchemaNode.maxLength, SchemaNode.default,
    SchemaNode.oneOf, SchemaNode.anyOf, SchemaNode.allOf, SchemaNode.ref, SchemaNode.title,
    SchemaNode.definitions, schemaRequiredName, schemaString])
    (by simp [validate, validateValue, validateProps, validateItems, oneOfMatchCount, anyOfMatch,
    enumErrs, patternErrs, rangeErrs, lengthErrs, requiredErrs, keysOf, asObjFields, asArrElems,
    childPath, strTruthy, typeTruthy, declaredTypes, typeList, getValueType, primEqJson,
    primToString, jsNumToString, emptySchema, rtTrue,
    SchemaNode.withTypeField, SchemaNode.withDescr, SchemaNode.withProperties,
    SchemaNode.withItems, SchemaNode.withRequired, SchemaNode.withEnum, SchemaNode.withPattern,
    SchemaNode.withMinimum, SchemaNode.withMaximum, SchemaNode.withMinLength,
    SchemaNode.withMaxLength, SchemaNode.withDefault, SchemaNode.withOneOf, SchemaNode.withAnyOf,
    SchemaNode.withAllOf, SchemaNode.withRef, SchemaNode.withTitle, SchemaNode.withDefinitions,
    SchemaNode.typeField, SchemaNode.descr, SchemaNode.properties, SchemaNode.items,
    SchemaNode.required, SchemaNode.enum, SchemaNode.pattern, SchemaNode.minimum,
    SchemaNode.maximum, SchemaNode.minLength, SchemaNode.maxLength, SchemaNode.default,
    SchemaNode.oneOf, SchemaNode.anyOf, SchemaNode.allOf, SchemaNode.ref, SchemaNode.title,
    SchemaNode.definitions, schemaRequiredName, schemaString])
    (by decide)
    (by simp [validate, validateValue, validateProps, validateItems, oneOfMatchCount, anyOfMatch,
    enumErrs, patternErrs, rangeErrs, lengthErrs, requiredErrs, keysOf, asObjFields, asArrElems,
    childPath, strTruthy, typeTruthy, declaredTypes, typeList, getValueType, primEqJson,
    primToString, jsNumToString, emptySchema, rtTrue,
    SchemaNode.withTypeField, SchemaNode.withDescr, SchemaNode.withProperties,
    SchemaNode.withItems, SchemaNode.withRequired, SchemaNode.withEnum, SchemaNode.withPattern,
    SchemaNode.withMinimum, SchemaNode.withMaximum, SchemaNode.withMinLength,
    SchemaNode.withMaxLength, SchemaNode.withDefault, SchemaNode.withOneOf, SchemaNode.withAnyOf,
    SchemaNode.withAllOf, SchemaNode.withRef, SchemaNode.withTitle, SchemaNode.withDefinitions,
    SchemaNode.typeField, SchemaNode.descr, SchemaNode.properties, SchemaNode.items,
    SchemaNode.required, SchemaNode.enum, SchemaNode.pattern, SchemaNode.minimum,
    SchemaNode.maximum, SchemaNode.minLength, SchemaNode.maxLength, SchemaNode.default,
    SchemaNode.oneOf, SchemaNode.anyOf, SchemaNode.allOf, SchemaNode.ref, SchemaNode.title,
    SchemaNode.definitions])
    (by decide)
    (by decide)
    (by
      intro props hp kp hm
      simp [validate, validateValue, validateProps, validateItems, oneOfMatchCount, anyOfMatch,
    enumErrs, patternErrs, rangeErrs, lengthErrs, requiredErrs, keysOf, asObjFields, asArrElems,
    childPath, strTruthy, typeTruthy, declaredTypes, typeList, getValueType, primEqJson,
    primToString, jsNumToString, emptySchema, rtTrue,
    SchemaNode.withTypeField, SchemaNode.withDescr, SchemaNode.withProperties,
    SchemaNode.withItems, SchemaNode.withRequired, SchemaNode.withEnum, SchemaNode.withPattern,
    SchemaNode.withMinimum, SchemaNode.withMaximum, SchemaNode.withMinLength,
    SchemaNode.withMaxLength, SchemaNode.withDefault, SchemaNode.withOneOf, SchemaNode.withAnyOf,
    SchemaNode.withAllOf, SchemaNode.withRef, SchemaNode.withTitle, SchemaNode.withDefinitions,
    SchemaNode.typeField, SchemaNode.descr, SchemaNode.properties, SchemaNode.items,
    SchemaNode.required, SchemaNode.enum, SchemaNode.pattern, SchemaNode.minimum,
    SchemaNode.maximum, SchemaNode.minLength, SchemaNode.maxLength, SchemaNode.default,
    SchemaNode.oneOf, SchemaNode.anyOf, SchemaNode.allOf, SchemaNode.ref, SchemaNode.title,
    SchemaNode.definitions, schemaRequiredName, schemaString] at hp
      subst hp
      simp at hm
      subst hm
      decide)

/-- Counterexample to C4 as stated: with the duplicate required list
`{type:"object", required:["a","a"]}` and document `{}`, the missing field
"a" is reported twice, not exactly once. -/
theorem required_missing_duplicate_entries :
    (validate rtTrue (Json.obj []) schemaDupRequired).errors.countP
      (fun e => (e.path == "a") && (e.message == "Required field missing")) = 2 := by
  simp [validate, validateValue, validateProps, validateItems, oneOfMatchCount, anyOfMatch,
    enumErrs, patternErrs, rangeErrs, lengthErrs, requiredErrs, keysOf, asObjFields, asArrElems,
    childPath, strTruthy, typeTruthy, declaredTypes, typeList, getValueType, primEqJson,
    primToString, jsNumToString, emptySchema, rtTrue,
    SchemaNode.withTypeField, SchemaNode.withDescr, SchemaNode.withProperties,
    SchemaNode.withItems, SchemaNode.withRequired, SchemaNode.withEnum, SchemaNode.withPattern,
    SchemaNode.withMinimum, SchemaNode.withMaximum, SchemaNode.withMinLength,
    SchemaNode.withMaxLength, SchemaNode.withDefault, SchemaNode.withOneOf, SchemaNode.withAnyOf,
    SchemaNode.withAllOf, SchemaNode.withRef, SchemaNode.withTitle, SchemaNode.withDefinitions,
    SchemaNode.typeField, SchemaNode.descr, SchemaNode.properties, SchemaNode.items,
    SchemaNode.required, SchemaNode.enum, SchemaNode.pattern, SchemaNode.minimum,
    SchemaNode.maximum, SchemaNode.minLength, SchemaNode.maxLength, SchemaNode.default,
    SchemaNode.oneOf, SchemaNode.anyOf, SchemaNode.allOf, SchemaNode.ref, SchemaNode.title,
    SchemaNode.definitions, schemaDupRequired]

/-- C9: when a node's `type` field is in list form, the structural checks
(required fields, per-property recursion, items recursion) never run — they
are guarded by strict equality of the raw `type` field with the single
strings "object"/"array" — so validation is unchanged if `required`,
`properties` and `items` are removed; concretely,
`validate({}, {type:["object"], required:["a"]})` is valid with no errors,
while `validate({}, {type:"object", required:["a"]})` reports the missing
field. -/
theorem list_form_type_skips_structural_checks :
    (∀ (rt : String → String → Bool) (v : Json) (s : SchemaNode) (p : String)
       (ts : List String), s.typeField = some (.many ts) →
      validateValue rt v s p = validateValue rt v (clearStructural s) p) ∧
    validate rtTrue (Json.obj []) schemaListObjectRequired = ⟨true, []⟩ ∧
    validate rtTrue (Json.obj []) schemaObjectRequiredA =
      ⟨false, [⟨"a", "Required field missing", none⟩]⟩ := by
  refine ⟨fun rt v s p ts h => listType_ignores_structural rt v s p ts h, ?_, ?_⟩
  · simp [validate, validateValue, validateProps, validateItems, oneOfMatchCount, anyOfMatch,
    enumErrs, patternErrs, rangeErrs, lengthErrs, requiredErrs, keysOf, asObjFields, asArrElems,
    childPath, strTruthy, typeTruthy, declaredTypes, typeList, getValueType, primEqJson,
    primToString, jsNumToString, emptySchema, rtTrue,
    SchemaNode.withTypeField, SchemaNode.withDescr, SchemaNode.withProperties,
    SchemaNode.withItems, SchemaNode.withRequired, SchemaNode.withEnum, SchemaNode.withPattern,
    SchemaNode.withMinimum, SchemaNode.withMaximum, SchemaNode.withMinLength,
    SchemaNode.withMaxLength, SchemaNode.withDefault, SchemaNode.withOneOf, SchemaNode.withAnyOf,
    SchemaNode.withAllOf, SchemaNode.withRef, SchemaNode.withTitle, SchemaNode.withDefinitions,
    SchemaNode.typeField, SchemaNode.descr, SchemaNode.properties, SchemaNode.items,
    SchemaNode.required, SchemaNode.enum, SchemaNode.pattern, SchemaNode.minimum,
    SchemaNode.maximum, SchemaNode.minLength, SchemaNode.maxLength, SchemaNode.default,
    SchemaNode.oneOf, SchemaNode.anyOf, SchemaNode.allOf, SchemaNode.ref, SchemaNode.title,
    SchemaNode.definitions, schemaListObjectRequired]
  · simp [validate, validateValue, validateProps, validateItems, oneOfMatchCount, anyOfMatch,
    enumErrs, patternErrs, rangeErrs, lengthErrs, requiredErrs, keysOf, asObjFields, asArrElems,
    childPath, strTruthy, typeTruthy, declaredTypes, typeList, getValueType, primEqJson,
    primToString, jsNumToString, emptySchema, rtTrue,
    SchemaNode.withTypeField, SchemaNode.withDescr, SchemaNode.withProperties,
    SchemaNode.withItems, SchemaNode.withRequired, SchemaNode.withEnum, SchemaNode.withPattern,
    SchemaNode.withMinimum, SchemaNode.withMaximum, SchemaNode.withMinLength,
    SchemaNode.withMaxLength, SchemaNode.withDefault, SchemaNode.withOneOf, SchemaNode.withAnyOf,
    SchemaNode.withAllOf, SchemaNode.withRef, SchemaNode.withTitle, SchemaNode.withDefinitions,
    SchemaNode.typeField, SchemaNode.descr, SchemaNode.properties, SchemaNode.items,
    SchemaNode.required, SchemaNode.enum, SchemaNode.pattern, SchemaNode.minimum,
    SchemaNode.maximum, SchemaNode.minLength, SchemaNode.maxLength, SchemaNode.default,
    SchemaNode.oneOf, SchemaNode.anyOf, SchemaNode.allOf, SchemaNode.ref, SchemaNode.title,
    SchemaNode.definitions, schemaObjectRequiredA]

/-- Witness for C9: the list-form schema `{type:["object"], required:["a"]}`
validates `{}` identically with and without its structural fields. -/
theorem list_form_type_skips_structural_checks_witness :
    validateValue rtTrue (Json.obj []) schemaListObjectRequired "" =
      validateValue rtTrue (Json.obj []) (clearStructural schemaListObjectRequired) "" :=
  list_form_type_skips_structural_checks.1 rtTrue (Json.obj []) schemaListObjectRequired ""
    ["object"] (by simp [validate, validateValue, validateProps, validateItems, oneOfMatchCount, anyOfMatch,
    enumErrs, patternErrs, rangeErrs, lengthErrs, requiredErrs, keysOf, asObjFields, asArrElems,
    childPath, strTruthy, typeTruthy, declaredTypes, typeList, getValueType, primEqJson,
    primToString, jsNumToString, emptySchema, rtTrue,
    SchemaNode.withTypeField, SchemaNode.withDescr, SchemaNode.withProperties,
    SchemaNode.withItems, SchemaNode.withRequired, SchemaNode.withEnum, SchemaNode.withPattern,
    SchemaNode.withMinimum, SchemaNode.withMaximum, SchemaNode.withMinLength,
    SchemaNode.withMaxLength, SchemaNode.withDefault, SchemaNode.withOneOf, SchemaNode.withAnyOf,
    SchemaNode.withAllOf, SchemaNode.withRef, SchemaNode.withTitle, SchemaNode.withDefinitions,
    SchemaNode.typeField, SchemaNode.descr, SchemaNode.properties, SchemaNode.items,
    SchemaNode.required, SchemaNode.enum, SchemaNode.pattern, SchemaNode.minimum,
    SchemaNode.maximum, SchemaNode.minLength, SchemaNode.maxLength, SchemaNode.default,
    SchemaNode.oneOf, SchemaNode.anyOf, SchemaNode.allOf, SchemaNode.ref, SchemaNode.title,
    SchemaNode.definitions, schemaListObjectRequired])

/-- C6: `generateFromSchema` follows exactly the fixed per-property priority
and root rules of the specification, restated verbatim as `claimTemplate` /
`claimTemplateValue`: explicit `default` first, else the first enum element
when `enum` is nonempty, else by declared type (string → "", number/integer
→ declared minimum or 0, boolean → false, array → [], object → recursive
template, anything else → null), preserving property declaration order; at
the root an "array" schema yields `[]` regardless of `items` and any other
non-object root (or object root without properties) yields `{}`.  The final
conjunct is concrete scenario 3. -/
theorem generateFromSchema_follows_template_rules :
    (∀ s : SchemaNode, generateFromSchema s = claimTemplate s) ∧
    (∀ props : List (String × SchemaNode), templateProps props = claimTemplateProps props) ∧
    (∀ ps : SchemaNode, templateValue ps = claimTemplateValue ps) ∧
    generateFromSchema schemaRoleAge =
      Json.obj [("role", Json.str "admin"), ("age", Json.num 18)] := by
  have main :
      (∀ s : SchemaNode, generateFromSchema s = claimTemplate s) ∧
      (∀ props : List (String × SchemaNode), templateProps props = claimTemplateProps props) ∧
      (∀ ps : SchemaNode, templateValue ps = claimTemplateValue ps) := by
    apply generateFromSchema.mutual_induct
    case case1 =>
      intro s h
      rcases s with ⟨t, d, p, i, r, en, pa, mi, ma, mil, mal, df, oo, ao, alo, rf, ti, dfs⟩
      simp only [SchemaNode.typeField] at h
      subst h
      simp [generateFromSchema, claimTemplate, SchemaNode.typeField, SchemaNode.properties]
    case case2 =>
      intro s hna hobj props hp ih
      rcases s with ⟨t, d, p, i, r, en, pa, mi, ma, mil, mal, df, oo, ao, alo, rf, ti, dfs⟩
      simp only [SchemaNode.typeField] at hobj
      simp only [SchemaNode.properties] at hp
      subst hobj
      subst hp
      simp [generateFromSchema, claimTemplate, ih, SchemaNode.typeField, SchemaNode.properties]
    case case3 =>
      intro s hna hobj hp
      rcases s with ⟨t, d, p, i, r, en, pa, mi, ma, mil, mal, df, oo, ao, alo, rf, ti, dfs⟩
      simp only [SchemaNode.typeField] at hobj
      simp only [SchemaNode.properties] at hp
      subst hobj
      subst hp
      simp [generateFromSchema, claimTemplate, SchemaNode.typeField, SchemaNode.properties]
    case case4 =>
      intro s hna hno
      rcases s with ⟨t, d, p, i, r, en, pa, mi, ma, mil, mal, df, oo, ao, alo, rf, ti, dfs⟩
      simp only [SchemaNode.typeField] at hna hno
      simp only [generateFromSchema, claimTemplate]
      simp only [SchemaNode.typeField, SchemaNode.properties]
      rw [if_neg hna, if_neg hna]
      rw [if_neg hno]
      split <;> simp_all
    case case5 =>
      simp [templateProps, claimTemplateProps]
    case case6 =>
      intro key ps rest ih1 ih2
      simp [templateProps, claimTemplateProps, ih1, ih2]
    case case7 =>
      intro ps v h
      rcases ps with ⟨t, d, p, i, r, en, pa, mi, ma, mil, mal, df, oo, ao, alo, rf, ti, dfs⟩
      simp only [SchemaNode.default] at h
      subst h
      simp [templateValue, claimTemplateValue, SchemaNode.typeField, SchemaNode.default, SchemaNode.enum, SchemaNode.minimum]
    case case8 =>
      intro ps hd e tail hen
      rcases ps with ⟨t, d, p, i, r, en, pa, mi, ma, mil, mal, df, oo, ao, alo, rf, ti, dfs⟩
      simp only [SchemaNode.default] at hd
      simp only [SchemaNode.enum] at hen
      subst hd
      subst hen
      simp [templateValue, claimTemplateValue, SchemaNode.typeField, SchemaNode.default, SchemaNode.enum, SchemaNode.minimum]
    case case9 =>
      intro ps hd ht hen
      rcases ps with ⟨t, d, p, i, r, en, pa, mi, ma, mil, mal, df, oo, ao, alo, rf, ti, dfs⟩
      simp only [SchemaNode.default] at hd
      simp only [SchemaNode.typeField] at ht
      simp only [SchemaNode.enum] at hen
      subst hd
      subst ht
      rcases en with _ | ⟨_ | ⟨pe, pt⟩⟩
      · simp [templateValue, claimTemplateValue, SchemaNode.typeField, SchemaNode.default, SchemaNode.enum, SchemaNode.minimum]
      · simp [templateValue, claimTemplateValue, SchemaNode.typeField, SchemaNode.default, SchemaNode.enum, SchemaNode.minimum]
      · exact (hen pe pt rfl).elim
    case case10 =>
      intro ps hd hns ht hen
      rcases ps with ⟨t, d, p, i, r, en, pa, mi, ma, mil, mal, df, oo, ao, alo, rf, ti, dfs⟩
      simp only [SchemaNode.default] at hd
      simp only [SchemaNode.typeField] at ht
      simp only [SchemaNode.enum] at hen
      subst hd
      rcases en with _ | ⟨_ | ⟨pe, pt⟩⟩
      · rcases ht with ht | ht <;> (subst ht; simp [templateValue, claimTemplateValue, SchemaNode.typeField, SchemaNode.default, SchemaNode.enum, SchemaNode.minimum])
      · rcases ht with ht | ht <;> (subst ht; simp [templateValue, claimTemplateValue, SchemaNode.typeField, SchemaNode.default, SchemaNode.enum, SchemaNode.minimum])
      · exact (hen pe pt rfl).elim
    case case11 =>
      intro ps hd hns hnn ht hen
      rcases ps with ⟨t, d, p, i, r, en, pa, mi, ma, mil, mal, df, oo, ao, alo, rf, ti, dfs⟩
      simp only [SchemaNode.default] at hd
      simp only [SchemaNode.typeField] at ht
      simp only [SchemaNode.enum] at hen
      subst hd
      subst ht
      rcases en with _ | ⟨_ | ⟨pe, pt⟩⟩
      · simp [templateValue, claimTemplateValue, SchemaNode.typeField, SchemaNode.default, SchemaNode.enum, SchemaNode.minimum]
      · simp [templateValue, claimTemplateValue, SchemaNode.typeField, SchemaNode.default, SchemaNode.enum, SchemaNode.minimum]
      · exact (hen pe pt rfl).elim
    case case12 =>
      intro ps hd hns hnn hnb ht hen
      rcases ps with ⟨t, d, p, i, r, en, pa, mi, ma, mil, mal, df, oo, ao, alo, rf, ti, dfs⟩
      simp only [SchemaNode.default] at hd
      simp only [SchemaNode.typeField] at ht
      simp only [SchemaNode.enum] at hen
      subst hd
      subst ht
      rcases en with _ | ⟨_ | ⟨pe, pt⟩⟩
      · simp [templateValue, claimTemplateValue, SchemaNode.typeField, SchemaNode.default, SchemaNode.enum, SchemaNode.minimum]
      · simp [templateValue, claimTemplateValue, SchemaNode.typeField, SchemaNode.default, SchemaNode.enum, SchemaNode.minimum]
      · exact (hen pe pt rfl).elim
    case case13 =>
      intro ps hd hns hnn hnb hna ht hen ih
      rcases ps with ⟨t, d, p, i, r, en, pa, mi, ma, mil, mal, df, oo, ao, alo, rf, ti, dfs⟩
      simp only [SchemaNode.default] at hd
      simp only [SchemaNode.typeField] at ht
      simp only [SchemaNode.enum] at hen
      subst hd
      subst ht
      rcases en with _ | ⟨_ | ⟨pe, pt⟩⟩
      · simp [templateValue, claimTemplateValue, ih, SchemaNode.typeField, SchemaNode.default, SchemaNode.enum, SchemaNode.minimum]
      · simp [templateValue, claimTemplateValue, ih, SchemaNode.typeField, SchemaNode.default, SchemaNode.enum, SchemaNode.minimum]
      · exact (hen pe pt rfl).elim
    case case14 =>
      intro ps hd hns hnn hnb hna hno hen
      rcases ps with ⟨t, d, p, i, r, en, pa, mi, ma, mil, mal, df, oo, ao, alo, rf, ti, dfs⟩
      simp only [SchemaNode.default] at hd
      simp only [SchemaNode.typeField] at hns hnn hnb hna hno
      simp only [SchemaNode.enum] at hen
      subst hd
      rcases en with _ | ⟨_ | ⟨pe, pt⟩⟩
      · simp only [templateValue, claimTemplateValue, SchemaNode.default, SchemaNode.enum,
          SchemaNode.typeField, SchemaNode.minimum]
        rw [if_neg hns, if_neg hnn, if_neg hnb, if_neg hna, if_neg hno]
        split <;> simp_all
      · simp only [templateValue, claimTemplateValue, SchemaNode.default, SchemaNode.enum,
          SchemaNode.typeField, SchemaNode.minimum]
        rw [if_neg hns, if_neg hnn, if_neg hnb, if_neg hna, if_neg hno]
        split <;> simp_all
      · exact (hen pe pt rfl).elim
  refine ⟨main.1, main.2.1, main.2.2, ?_⟩
  simp [generateFromSchema, templateProps, templateValue, primToJson, emptySchema,
    schemaRoleAge, schemaString,
    SchemaNode.withTypeField, SchemaNode.withProperties, SchemaNode.withRequired,
    SchemaNode.withEnum, SchemaNode.withMinimum, SchemaNode.withTitle,
    SchemaNode.typeField, SchemaNode.properties, SchemaNode.required, SchemaNode.enum,
    SchemaNode.minimum, SchemaNode.default, SchemaNode.title]

/-- C7 (amended): for every schema in the `rootTemplateOk` class — root type
"object" or "array", and throughout the tree: no `$ref`/`oneOf`/`anyOf`/
`default`/`enum`, a single declared type among string/integer/boolean/array/
object (type "number" is excluded because its generated default is integral
and is classified "integer"), integral `minimum` on integer nodes, required
fields drawn from declared properties, and unique nonduplicated property
keys — re-validating `generateFromSchema(schema)` against the same schema
produces no type-mismatch errors and no "Required field missing" errors. -/
theorem template_revalidates_without_type_or_required_errors
    (s : SchemaNode) (h : rootTemplateOk s = true) (rt : String → String → Bool) :
    ((validate rt (generateFromSchema s) s).errors.all benignMsg) = true := by
  unfold rootTemplateOk at h
  simp only [Bool.and_eq_true, Bool.or_eq_true, beq_iff_eq] at h
  obtain ⟨hty, hok⟩ := h
  rw [List.all_eq_true]
  intro e he
  have herr : (validate rt (generateFromSchema s) s).errors =
      validateValue rt (generateFromSchema s) s "" := rfl
  rw [herr] at he
  have hok' := hok
  unfold templateOk at hok'
  simp only [Bool.and_eq_true] at hok'
  obtain ⟨⟨⟨⟨⟨-, -⟩, -⟩, hdef⟩, henum⟩, -⟩ := hok'
  rw [Option.isNone_iff_eq_none] at hdef henum
  have hval : templateValue s = generateFromSchema s := by
    rcases hty with hty | hty
    · simp [templateValue, hdef, henum, hty]
    · simp [templateValue, generateFromSchema, hdef, henum, hty]
  rw [← hval] at he
  exact template_benign_aux (sizeOf s) s (le_refl _) hok rt "" e he

/-- Witness for C7: the scenario-1 schema is in the class and its template
`{name:""}` re-validates with only benign messages. -/
theorem template_revalidates_witness :
    rootTemplateOk schemaRequiredName = true ∧
    ((validate rtTrue (generateFromSchema schemaRequiredName) schemaRequiredName).errors.all
      benignMsg) = true :=
  ⟨by simp [rootTemplateOk, templateOk, templateOkProps, nodupKeys, intMinOk, benignMsg,
    schemaRequiredName, schemaString, validate, validateValue, validateProps, validateItems, oneOfMatchCount, anyOfMatch,
    enumErrs, patternErrs, rangeErrs, lengthErrs, requiredErrs, keysOf, asObjFields, asArrElems,
    childPath, strTruthy, typeTruthy, declaredTypes, typeList, getValueType, primEqJson,
    primToString, jsNumToString, emptySchema, rtTrue, generateFromSchema, templateProps,
    templateValue, primToJson,
    SchemaNode.withTypeField, SchemaNode.withDescr, SchemaNode.withProperties,
    SchemaNode.withItems, SchemaNode.withRequired, SchemaNode.withEnum, SchemaNode.withPattern,
    SchemaNode.withMinimum, SchemaNode.withMaximum, SchemaNode.withMinLength,
    SchemaNode.withMaxLength, SchemaNode.withDefault, SchemaNode.withOneOf, SchemaNode.withAnyOf,
    SchemaNode.withAllOf, SchemaNode.withRef, SchemaNode.withTitle, SchemaNode.withDefinitions,
    SchemaNode.typeField, SchemaNode.descr, SchemaNode.properties, SchemaNode.items,
    SchemaNode.required, SchemaNode.enum, SchemaNode.pattern, SchemaNode.minimum,
    SchemaNode.maximum, SchemaNode.minLength, SchemaNode.maxLength, SchemaNode.default,
    SchemaNode.oneOf, SchemaNode.anyOf, SchemaNode.allOf, SchemaNode.ref, SchemaNode.title,
    SchemaNode.definitions],
   template_revalidates_without_type_or_required_errors schemaRequiredName
     (by simp [rootTemplateOk, templateOk, templateOkProps, nodupKeys, intMinOk, benignMsg,
    schemaRequiredName, schemaString, validate, validateValue, validateProps, validateItems, oneOfMatchCount, anyOfMatch,
    enumErrs, patternErrs, rangeErrs, lengthErrs, requiredErrs, keysOf, asObjFields, asArrElems,
    childPath, strTruthy, typeTruthy, declaredTypes, typeList, getValueType, primEqJson,
    primToString, jsNumToString, emptySchema, rtTrue, generateFromSchema, templateProps,
    templateValue, primToJson,
    SchemaNode.withTypeField, SchemaNode.withDescr, SchemaNode.withProperties,
    SchemaNode.withItems, SchemaNode.withRequired, SchemaNode.withEnum, SchemaNode.withPattern,
    SchemaNode.withMinimum, SchemaNode.withMaximum, SchemaNode.withMinLength,
    SchemaNode.withMaxLength, SchemaNode.withDefault, SchemaNode.withOneOf, SchemaNode.withAnyOf,
    SchemaNode.withAllOf, SchemaNode.withRef, SchemaNode.withTitle, SchemaNode.withDefinitions,
    SchemaNode.typeField, SchemaNode.descr, SchemaNode.properties, SchemaNode.items,
    SchemaNode.required, SchemaNode.enum, SchemaNode.pattern, SchemaNode.minimum,
    SchemaNode.maximum, SchemaNode.minLength, SchemaNode.maxLength, SchemaNode.default,
    SchemaNode.oneOf, SchemaNode.anyOf, SchemaNode.allOf, SchemaNode.ref, SchemaNode.title,
    SchemaNode.definitions]) rtTrue⟩

/-- Counterexample to C7 as stated: for the schema `{type:"string"}` the
generated template is `{}`, and re-validating it yields exactly the
type-mismatch error "Expected type string, got object". -/
theorem template_revalidation_fails_for_string_root :
    (validate rtTrue (generateFromSchema schemaString) schemaString).errors =
      [⟨"", "Expected type string, got object", some (Json.obj [])⟩] ∧
    ("Expected type ".data.isPrefixOf "Expected type string, got object".data) = true := by
  constructor
  · rw [show "Expected type string, got object" =
        "Expected type " ++ " | ".intercalate ["string"] ++ ", got " ++ "object" from by decide]
    simp [validate, validateValue, validateProps, validateItems, oneOfMatchCount, anyOfMatch,
    enumErrs, patternErrs, rangeErrs, lengthErrs, requiredErrs, keysOf, asObjFields, asArrElems,
    childPath, strTruthy, typeTruthy, declaredTypes, typeList, getValueType, primEqJson,
    primToString, jsNumToString, emptySchema, rtTrue, generateFromSchema, templateProps,
    templateValue, primToJson,
    SchemaNode.withTypeField, SchemaNode.withDescr, SchemaNode.withProperties,
    SchemaNode.withItems, SchemaNode.withRequired, SchemaNode.withEnum, SchemaNode.withPattern,
    SchemaNode.withMinimum, SchemaNode.withMaximum, SchemaNode.withMinLength,
    SchemaNode.withMaxLength, SchemaNode.withDefault, SchemaNode.withOneOf, SchemaNode.withAnyOf,
    SchemaNode.withAllOf, SchemaNode.withRef, SchemaNode.withTitle, SchemaNode.withDefinitions,
    SchemaNode.typeField, SchemaNode.descr, SchemaNode.properties, SchemaNode.items,
    SchemaNode.required, SchemaNode.enum, SchemaNode.pattern, SchemaNode.minimum,
    SchemaNode.maximum, SchemaNode.minLength, SchemaNode.maxLength, SchemaNode.default,
    SchemaNode.oneOf, SchemaNode.anyOf, SchemaNode.allOf, SchemaNode.ref, SchemaNode.title,
    SchemaNode.definitions, schemaString]
  · decide

/-- C8: the TypeScript generator hoists object-with-properties properties
only one level deep.  On the depth-2 schema (title "A", object property `b`
containing object property `c`), the output references the name `ABC` at the
use site inside interface `AB`, and declares interface `AB` itself, but no
declaration of `ABC` appears anywhere in the output — contradicting the
generator's own use-site comment ("nested object that got its own
interface") and leaving a dangling type reference. -/
theorem nested_hoisting_stops_at_depth_one :
    ((generateTypeScriptLines "TS" schemaDepth2 none true 4).contains "    c?: ABC;") = true ∧
    ((generateTypeScriptLines "TS" schemaDepth2 none true 4).contains
      "export interface AB \x7b") = true ∧
    ((generateTypeScriptLines "TS" schemaDepth2 none true 4).all
      (fun l => !("export interface ABC".data.isPrefixOf l.data))) = true := by
  refine ⟨?_, ?_, ?_⟩ <;> simp [generateTypeScriptLines, resolveExportName, generateInterface, interfaceProps,
    definitionsInterfaces, nestedPropertyInterfaces, schemaTypeToTs, tsTypeNames,
    tsTypeNameList, tsTypeName, tsList, enumLiteralTs, refTypeName, toPascalCase,
    dashUnderscoreFold, upperFirst, strTruthy, emptySchema, schemaDepth2, schemaString,
    SchemaNode.withTypeField, SchemaNode.withProperties, SchemaNode.withTitle,
    SchemaNode.typeField, SchemaNode.descr, SchemaNode.properties, SchemaNode.items,
    SchemaNode.required, SchemaNode.enum, SchemaNode.pattern, SchemaNode.ref,
    SchemaNode.title, SchemaNode.definitions, SchemaNode.oneOf, SchemaNode.anyOf,
    SchemaNode.allOf]
  all_goals decide

/-- C10: the class-generation default for a property is computed by flat
rules only — explicit `default`, else first enum entry, else a per-type
literal where an "object"-typed property yields the literal `{}` (never a
recursively generated template), "null" and unrecognized types yield `null`,
a list-form `type` contributes only its first element, and the `properties`
field is never consulted; the last three conjuncts contrast this with the
template generator on the same nested schema and exhibit the generated
constructor line. -/
theorem class_defaults_are_flat :
    (∀ p : SchemaNode, p.default = none → (∀ e es, p.enum ≠ some (e :: es)) →
      firstTypeName p = some "object" → getDefaultValue p = "\x7b\x7d") ∧
    (∀ p : SchemaNode, p.default = none → (∀ e es, p.enum ≠ some (e :: es)) →
      firstTypeName p = some "null" → getDefaultValue p = "null") ∧
    (∀ (p : SchemaNode) (t : String), p.default = none → (∀ e es, p.enum ≠ some (e :: es)) →
      firstTypeName p = some t →
      t ∉ ["string", "number", "integer", "boolean", "array", "object", "null"] →
      getDefaultValue p = "null") ∧
    (∀ (p : SchemaNode) (t : String) (ts : List String),
      getDefaultValue (p.withTypeField (some (.many (t :: ts)))) =
        getDefaultValue (p.withTypeField (some (.single t)))) ∧
    (∀ (p : SchemaNode) (q : Option (List (String × SchemaNode))),
      getDefaultValue (p.withProperties q) = getDefaultValue p) ∧
    getDefaultValue schemaNestedSettings = "\x7b\x7d" ∧
    generateFromSchema schemaNestedSettings = Json.obj [("x", Json.str "")] ∧
    ((generateClass schemaClassC10 "User" "    " true).contains
      "        this.settings = data.settings !== undefined ? data.settings : \x7b\x7d;") = true := by
  refine ⟨?_, ?_, ?_, ?_, ?_, ?_, ?_, ?_⟩
  · intro p hd hen ht
    rcases henum : p.enum with _ | ⟨_ | ⟨e0, es0⟩⟩
    · simp [getDefaultValue, hd, henum, ht]
    · simp [getDefaultValue, hd, henum, ht]
    · exact ((hen e0 es0 henum).elim)
  · intro p hd hen ht
    rcases henum : p.enum with _ | ⟨_ | ⟨e0, es0⟩⟩
    · simp [getDefaultValue, hd, henum, ht]
    · simp [getDefaultValue, hd, henum, ht]
    · exact ((hen e0 es0 henum).elim)
  · intro p t hd hen ht hnt
    rcases henum : p.enum with _ | ⟨_ | ⟨e0, es0⟩⟩
    · simp only [getDefaultValue, hd, henum, ht]
      split <;> simp_all
    · simp only [getDefaultValue, hd, henum, ht]
      split <;> simp_all
    · exact ((hen e0 es0 henum).elim)
  · intro p t ts
    cases p with
    | mk tf d pr it rq en pa mi ma mil mal df oo ao alo rf ti dfs =>
      simp [getDefaultValue, firstTypeName, SchemaNode.withTypeField, SchemaNode.typeField,
        SchemaNode.default, SchemaNode.enum, SchemaNode.minimum]
  · intro p q
    cases p with
    | mk tf d pr it rq en pa mi ma mil mal df oo ao alo rf ti dfs =>
      simp [getDefaultValue, firstTypeName, SchemaNode.withProperties, SchemaNode.typeField,
        SchemaNode.default, SchemaNode.enum, SchemaNode.minimum]
  · simp [generateClass, classCtorLines, classRequiredChecks, classPropChecks, classToJsonLines,
    insertionDedup, getDefaultValue, firstTypeName, toCamelCase, dashUnderscoreFold,
    lowerFirst, strTruthy, emptySchema, schemaClassC10, schemaNestedSettings, schemaString,
    generateFromSchema, templateProps, templateValue,
    SchemaNode.withTypeField, SchemaNode.withProperties, SchemaNode.withTitle,
    SchemaNode.typeField, SchemaNode.descr, SchemaNode.properties, SchemaNode.items,
    SchemaNode.required, SchemaNode.enum, SchemaNode.pattern, SchemaNode.minimum,
    SchemaNode.minLength, SchemaNode.default, SchemaNode.title]
  · simp [generateClass, classCtorLines, classRequiredChecks, classPropChecks, classToJsonLines,
    insertionDedup, getDefaultValue, firstTypeName, toCamelCase, dashUnderscoreFold,
    lowerFirst, strTruthy, emptySchema, schemaClassC10, schemaNestedSettings, schemaString,
    generateFromSchema, templateProps, templateValue,
    SchemaNode.withTypeField, SchemaNode.withProperties, SchemaNode.withTitle,
    SchemaNode.typeField, SchemaNode.descr, SchemaNode.properties, SchemaNode.items,
    SchemaNode.required, SchemaNode.enum, SchemaNode.pattern, SchemaNode.minimum,
    SchemaNode.minLength, SchemaNode.default, SchemaNode.title]
  · simp [generateClass, classCtorLines, classRequiredChecks, classPropChecks, classToJsonLines,
    insertionDedup, getDefaultValue, firstTypeName, toCamelCase, dashUnderscoreFold,
    lowerFirst, strTruthy, emptySchema, schemaClassC10, schemaNestedSettings, schemaString,
    generateFromSchema, templateProps, templateValue,
    SchemaNode.withTypeField, SchemaNode.withProperties, SchemaNode.withTitle,
    SchemaNode.typeField, SchemaNode.descr, SchemaNode.properties, SchemaNode.items,
    SchemaNode.required, SchemaNode.enum, SchemaNode.pattern, SchemaNode.minimum,
    SchemaNode.minLength, SchemaNode.default, SchemaNode.title]
theorem class_defaults_are_flat_witness :
    getDefaultValue (emptySchema.withTypeField (some (.single "object"))) = "\x7b\x7d" :=
  class_defaults_are_flat.1 (emptySchema.withTypeField (some (.single "object")))
    rfl (fun e es h => by simp [emptySchema, SchemaNode.withTypeField, SchemaNode.enum] at h) rfl
